import Mathlib

/-!
# Verification of the telebook-backend predictive dialer core

A shallow embedding, in Lean 4, of the Redis-backed state-machine and dialer
logic of the `telebook-backend` repository (`events/utils.py`,
`events/tasks.py`, `dialer/utils.py`, `dialer/tasks.py`), together with
theorems settling the specification's claims about it.

Conventions of the embedding:
* Redis hashes and the JSON priority mapping become association lists
  (`List (String × _)`); `hset` replaces the binding (filter + append),
  `hdel` filters it out.
* Redis sorted sets (the idle-agent queues) become `List (String × Nat)`
  of (member, score); `zadd` deduplicates by member, `zrem` removes.
* Timestamps are epoch seconds as `Nat`.
* Fallible paths (missing state row) return `Option`/sum results exactly
  where the Python returns `None`.
* External switch commands are recorded in an emitted command trace; the
  outcome of a switch API call is an explicit boolean parameter.
-/

namespace Telebook

/-- The JSON agent record stored in the `AGENT_STATES` hash
(`events/utils.py`).  Python keeps a dict; the keys in play are
`state`, `current_call_id`, `team` and (read by the reaper, see
`dialer/tasks.py`) `call_initiated_at`. -/
structure AgentData where
  state : String
  current_call_id : Option String
  team : String
  call_initiated_at : Option Nat
deriving Repr, DecidableEq

/-- Association-list `hget`. -/
def hget {β : Type} (l : List (String × β)) (k : String) : Option β :=
  (l.find? (fun p => p.1 == k)).map (·.2)

/-- Association-list `hset`: replace the binding for `k`. -/
def hset {β : Type} (l : List (String × β)) (k : String) (v : β) :
    List (String × β) :=
  (l.filter (fun p => p.1 != k)) ++ [(k, v)]

/-- Association-list `hdel`. -/
def hdel {β : Type} (l : List (String × β)) (k : String) :
    List (String × β) :=
  l.filter (fun p => p.1 != k)

/-- Sorted-set `zadd {member: score}`: re-adding a member replaces its
score (deduplication, as the source comments note). -/
def zadd (q : List (String × Nat)) (member : String) (score : Nat) :
    List (String × Nat) :=
  (q.filter (fun p => p.1 != member)) ++ [(member, score)]

/-- Sorted-set `zrem`. -/
def zrem (q : List (String × Nat)) (member : String) :
    List (String × Nat) :=
  q.filter (fun p => p.1 != member)

/-- Sorted-set membership. -/
def zmem (q : List (String × Nat)) (member : String) : Bool :=
  q.any (fun p => p.1 == member)

/-- A stripped lead snapshot as enqueued by `construct_queue_object`
(`dialer/utils.py`); only the fields the verified logic inspects are
kept, plus presence markers for the two stripped fields. -/
structure QueueObject where
  lead_id : Nat
  phone_number : Option String
  last_order_details : Option String
  metadata : Option String
deriving Repr, DecidableEq

/-- An `ACTIVE_CALLS` record as written by `make_outbound_call_helper`
and the bridge path. -/
structure ActiveCall where
  agent_id : Option String
  phone_number : Option String
  payload : Option QueueObject
  call_uuid : String
  initiated_at : Option Nat
  connected_at : Option Nat
deriving Repr, DecidableEq

/-- An entry of a priority bucket: the refill/answer paths push lead
snapshots, while the hangup handler pushes whole active-call records. -/
inductive PQEntry where
  | leadEntry (q : QueueObject)
  | callEntry (c : ActiveCall)
deriving Repr, DecidableEq

/-- The slice of the Redis keyspace the verified code touches. -/
structure Cache where
  agent_states : List (String × AgentData)
  sales_queue : List (String × Nat)
  support_queue : List (String × Nat)
  secondary_sales_queue : List (String × Nat)
  active_calls : List (String × ActiveCall)
  priority_mapping : List (String × List PQEntry)
deriving Repr, DecidableEq

def Cache.initial : Cache :=
  { agent_states := [], sales_queue := [], support_queue := [],
    secondary_sales_queue := [], active_calls := [], priority_mapping := [] }

/-- The queue key chosen by the state-machine helpers: the source routes
`team == 'sales'` to `SALES_AGENT_QUEUE` and every other team to
`SUPPORT_AGENT_QUEUE` (the `else` branch of each helper). -/
def teamQueueKeyIsSales (team : String) : Bool := team == "sales"

def Cache.codeQueue (s : Cache) (team : String) : List (String × Nat) :=
  if teamQueueKeyIsSales team then s.sales_queue else s.support_queue

def Cache.setCodeQueue (s : Cache) (team : String)
    (q : List (String × Nat)) : Cache :=
  if teamQueueKeyIsSales team then { s with sales_queue := q }
  else { s with support_queue := q }

/-- `mark_agent_logged_in_cache` (`events/utils.py` lines 36-74): create
or refresh the state row as idle with no call, and `zadd` the agent into
the queue the code picks for its team. -/
def mark_agent_logged_in_cache (agent_id team : String) (now : Nat)
    (s : Cache) : Cache × Option AgentData :=
  let agent_data : AgentData :=
    match hget s.agent_states agent_id with
    | none => { state := "idle", current_call_id := none, team := team,
                call_initiated_at := none }
    | some old => { old with state := "idle", current_call_id := none }
  let s := { s with agent_states := hset s.agent_states agent_id agent_data }
  let s := s.setCodeQueue agent_data.team
    (zadd (s.codeQueue agent_data.team) agent_id now)
  (s, some agent_data)

/-- `mark_agent_idle_in_cache` (`events/utils.py` lines 76-112): requires
an existing row; sets state idle, clears the call id, re-adds to the
team's queue. -/
def mark_agent_idle_in_cache (agent_id : String) (now : Nat)
    (s : Cache) : Cache × Option AgentData :=
  match hget s.agent_states agent_id with
  | none => (s, none)
  | some old =>
    let agent_data := { old with state := "idle", current_call_id := none }
    let s := { s with agent_states := hset s.agent_states agent_id agent_data }
    let s := s.setCodeQueue agent_data.team
      (zadd (s.codeQueue agent_data.team) agent_id now)
    (s, some agent_data)

/-- `mark_agent_busy_in_cache` (`events/utils.py` lines 114-152): requires
an existing row; sets state busy and `current_call_id := call_id`, and
`zrem`s the agent from its team's queue.  Returns `none` when the row is
absent (agent logged out), `some true` on success. -/
def mark_agent_busy_in_cache (agent_id : String) (call_id : Option String)
    (s : Cache) : Cache × Option Bool :=
  match hget s.agent_states agent_id with
  | none => (s, none)
  | some old =>
    let agent_data := { old with state := "busy", current_call_id := call_id }
    let s := { s with agent_states := hset s.agent_states agent_id agent_data }
    let s := s.setCodeQueue agent_data.team
      (zrem (s.codeQueue agent_data.team) agent_id)
    (s, some true)

/-- `remove_agent_from_cache` (`events/utils.py` lines 210-239): logout;
requires an existing row; deletes it and `zrem`s the agent from its
team's queue. -/
def remove_agent_from_cache (agent_id : String) (s : Cache) :
    Cache × Option Bool :=
  match hget s.agent_states agent_id with
  | none => (s, none)
  | some old =>
    let s := { s with agent_states := hdel s.agent_states agent_id }
    let s := s.setCodeQueue old.team
      (zrem (s.codeQueue old.team) agent_id)
    (s, some true)

/-- `is_agent_idle_in_cache` (`events/utils.py` lines 155-186): absence of
the row gives `false`; otherwise each requested predicate must hold. -/
def is_agent_idle_in_cache (agent_id : String) (check_call_id : Bool)
    (check_state : Bool) (s : Cache) : Bool :=
  match hget s.agent_states agent_id with
  | none => false
  | some d =>
    (!check_state || d.state == "idle") &&
    (!check_call_id || d.current_call_id == none)

/-! ## Finite sequences of agent state-machine operations (claim C1) -/

/-- One agent state-machine operation, as the spec's §4.2 lists them. -/
inductive AgentOp where
  | login (agent_id team : String)
  | markIdle (agent_id : String)
  | markBusy (agent_id : String) (call_id : Option String)
  | logout (agent_id : String)
deriving Repr, DecidableEq

/-- Apply one operation at timestamp `now` (the timestamp only feeds the
sorted-set score of `zadd`). -/
def applyOp (op : AgentOp) (now : Nat) (s : Cache) : Cache :=
  match op with
  | .login a t => (mark_agent_logged_in_cache a t now s).1
  | .markIdle a => (mark_agent_idle_in_cache a now s).1
  | .markBusy a c => (mark_agent_busy_in_cache a c s).1
  | .logout a => (remove_agent_from_cache a s).1

/-- Run a finite sequence of operations, the clock ticking once per
operation. -/
def runOps : List AgentOp → Nat → Cache → Cache
  | [], _, s => s
  | op :: rest, t, s => runOps rest (t + 1) (applyOp op t s)

/-- The queue the state-machine helpers do NOT select for a team. -/
def Cache.otherQueue (s : Cache) (team : String) : List (String × Nat) :=
  if teamQueueKeyIsSales team then s.support_queue else s.sales_queue

/-- Number of idle queues the agent appears in. -/
def idleQueueCount (s : Cache) (aid : String) : Nat :=
  (if zmem s.sales_queue aid then 1 else 0) +
  (if zmem s.support_queue aid then 1 else 0) +
  (if zmem s.secondary_sales_queue aid then 1 else 0)

/-- The reachable-state invariant of the agent state machine: the
secondary-sales queue is never touched by the four operations; an agent
with a state row is idle exactly when it sits in the queue the code
assigns to its team, idleness comes with a null call id, and the agent
never sits in the non-selected queue; an agent without a row sits in no
queue. -/
def AgentInv (s : Cache) : Prop :=
  s.secondary_sales_queue = [] ∧
  (∀ aid d, hget s.agent_states aid = some d →
    ((d.state = "idle") ↔ zmem (s.codeQueue d.team) aid = true) ∧
    (d.state = "idle" → d.current_call_id = none) ∧
    zmem (s.otherQueue d.team) aid = false) ∧
  (∀ aid, hget s.agent_states aid = none →
    zmem s.sales_queue aid = false ∧ zmem s.support_queue aid = false)

/-- The state after a secondary-sales agent logs in on an empty system
(concrete input for claim C1). -/
def c1CounterexampleState : Cache :=
  runOps [AgentOp.login "a7" "secondary_sales"] 0 Cache.initial

/-- `handle_free_agent` (`events/utils.py` lines 387-395): only the call
to `mark_agent_idle_in_cache` is live, the rest is commented out. -/
def handle_free_agent (agent_id : String) (now : Nat) (s : Cache) : Cache :=
  (mark_agent_idle_in_cache agent_id now s).1

/-- `validate_and_cleanup_agent_states` (`dialer/tasks.py` lines 523-589),
the orphan reaper: snapshots the agent-state hash and the active-calls
hash, then for each busy agent either frees it when its recorded call id
is absent from the active-calls map, or — when the call id is null —
frees it when the row's `call_initiated_at` is present and more than 90
seconds old (`current_time - call_initiated_at > 90`). -/
def validate_and_cleanup_agent_states (now : Nat) (s : Cache) : Cache :=
  s.agent_states.foldl
    (fun acc p =>
      let agent_id := p.1
      let agent_data := p.2
      if agent_data.state ≠ "busy" then acc
      else
        match agent_data.current_call_id with
        | some cid =>
          if (hget s.active_calls cid).isNone then
            handle_free_agent agent_id now acc
          else acc
        | none =>
          match agent_data.call_initiated_at with
          | some t => if t + 90 < now then handle_free_agent agent_id now acc
                      else acc
          | none => acc)
    s

/-- The state after agent `a2` logs in (sales) and is marked busy with a
null call id — exactly what the secondary dialer pass produces — used as
the concrete input for claims C3 and C7. -/
def busyNullCallState : Cache :=
  runOps [AgentOp.login "a2" "sales", AgentOp.markBusy "a2" none] 0
    Cache.initial

/-! ## Switch commands and the event-handler branches
(`events/tasks.py`, `events/utils.py`, `dialer/utils.py`) -/

/-- A command issued to the media switch; the embedding records commands
in a trace instead of performing them. -/
inductive SwitchCmd where
  | uuidBridge (call_uuid dest : String)
  | uuidKill (call_uuid cause : String)
  | uuidTransfer (call_uuid ext : String)
deriving Repr, DecidableEq

/-- `remove_active_call` (`dialer/utils.py` lines 77-86): atomic
`hget`+`hdel` returning the prior record. -/
def remove_active_call (call_id : String) (s : Cache) :
    Cache × Option ActiveCall :=
  match hget s.active_calls call_id with
  | none => (s, none)
  | some c => ({ s with active_calls := hdel s.active_calls call_id }, some c)

/-- Python's `str(...)` on an optional string: `str(None) = "None"`. -/
def pyStr (o : Option String) : String := o.getD "None"

/-- `add_to_priority_queue_mapping` (`dialer/utils.py` lines 30-53): under
the queue lock, Python tests membership with the RAW value
(`if agent_id in queue_mapping`) but indexes with `str(agent_id)`.  A raw
string key that passes the test gets the entry APPENDED to its own bucket
(`list.append`); a raw string key that fails the test gets a fresh
one-entry bucket; a raw `None` NEVER passes the test, so
`queue_mapping["None"] = [entry]` overwrites the `"None"` bucket even
when it already exists.  (The `if not entry: raise` guard never fires on
the record entries modelled here.) -/
def add_to_priority_queue_mapping (agent_id : Option String)
    (entry : PQEntry) (s : Cache) : Cache :=
  let raw_member : Bool :=
    match agent_id with
    | some a => (hget s.priority_mapping a).isSome
    | none => false
  if raw_member then
    { s with
      priority_mapping := hset s.priority_mapping (pyStr agent_id)
        (((hget s.priority_mapping (pyStr agent_id)).getD []) ++ [entry]) }
  else
    { s with
      priority_mapping := hset s.priority_mapping (pyStr agent_id) [entry] }

/-- `update_active_call_in_cache` (`events/utils.py` lines 247-275): under
the call lock, merge a patch into the record; `false` when the record is
absent.  The Python dict-merge is modelled as a record patch function. -/
def update_active_call_in_cache (call_id : String)
    (patch : ActiveCall → ActiveCall) (s : Cache) : Cache × Bool :=
  match hget s.active_calls call_id with
  | none => (s, false)
  | some c =>
    ({ s with active_calls := hset s.active_calls call_id (patch c) },
     true)

/-- `disconnect_call` (`events/utils.py` lines 360-369): emits
`uuid_kill <uuid> <cause>`. -/
def disconnect_call (call_uuid cause : String) : List SwitchCmd :=
  [SwitchCmd.uuidKill call_uuid cause]

/-- `connect_agent_to_call` (`events/utils.py` lines 351-358):
`bridge_agent_to_call` (a `uuid_bridge` to `user/<ext>` whose success is
the `bridgeOk` parameter); on success mark the agent busy with this call
and stamp `agent_id`/`connected_at` on the active call; on failure kill
the call with cause `LOSE_RACE`.  A missing extension mapping raises in
Python (`KeyError` inside `get_agent_extension`), aborting the handler
with no command and no state change. -/
def connect_agent_to_call (extMap : List (String × String))
    (agent_id call_uuid : String) (bridgeOk : Bool) (now : Nat)
    (s : Cache) : Cache × List SwitchCmd :=
  match hget extMap agent_id with
  | none => (s, [])
  | some ext =>
    if bridgeOk then
      let s1 := (mark_agent_busy_in_cache agent_id (some call_uuid) s).1
      let s2 := (update_active_call_in_cache call_uuid
        (fun c => { c with agent_id := some agent_id,
                           connected_at := some now }) s1).1
      (s2, [SwitchCmd.uuidBridge call_uuid ("user/" ++ ext)])
    else
      (s, SwitchCmd.uuidBridge call_uuid ("user/" ++ ext) ::
        disconnect_call call_uuid "LOSE_RACE")

/-- The CHANNEL_ANSWER branch for an outbound first-leg answer with
`auto_bridge` unset and an `agent_id` header present
(`events/tasks.py` lines 77-83): the code gates on
`is_agent_idle_in_cache(agent_id, check_call_id=True, check_state=False)`
— only the null-call check, the state field is not consulted — and
either connects the agent or kills the call with cause `AGENT_BUSY`. -/
def handle_answer_first_leg_with_agent (extMap : List (String × String))
    (agent_id variable_uuid : String) (bridgeOk : Bool) (now : Nat)
    (s : Cache) : Cache × List SwitchCmd :=
  if is_agent_idle_in_cache agent_id true false s then
    connect_agent_to_call extMap agent_id variable_uuid bridgeOk now s
  else
    (s, disconnect_call variable_uuid "AGENT_BUSY")

/-- The agent resolution of the hangup handler: prefer the
`X-agent_id` header, fall back to the popped record's agent. -/
def resolve_hangup_agent (header_agent_id : Option String)
    (call_details : Option ActiveCall) : Option String :=
  match header_agent_id with
  | some a => some a
  | none =>
    match call_details with
    | some cd => cd.agent_id
    | none => none

/-- The CHANNEL_HANGUP_COMPLETE branch of `dispatch_event_handler`
(`events/tasks.py` lines 139-162): pop the active call, resolve the
agent, re-enqueue the record into the priority mapping when the cause is
one of NO_AVAILABLE_AGENT / AGENT_BUSY / LOSE_RACE and the record carries
a payload, free the agent on NORMAL_CLEARING.  (The transfer-cause branch
is dead code, and `call_ending_routine` only feeds the persistence sink,
which is outside this cache model.) -/
def channel_hangup_complete_branch (hangup_cause : String)
    (header_agent_id : Option String) (variable_uuid : String) (now : Nat)
    (s : Cache) : Cache :=
  let popped := remove_active_call variable_uuid s
  let s := popped.1
  let call_details := popped.2
  let agent_id := resolve_hangup_agent header_agent_id call_details
  let s :=
    if hangup_cause = "NO_AVAILABLE_AGENT" ∨ hangup_cause = "AGENT_BUSY" ∨
        hangup_cause = "LOSE_RACE" then
      match call_details with
      | some cd =>
        if cd.payload.isSome then
          add_to_priority_queue_mapping agent_id (PQEntry.callEntry cd) s
        else s
      | none => s
    else s
  if hangup_cause = "NORMAL_CLEARING" then
    match agent_id with
    | some a => handle_free_agent a now s
    | none => s
  else s

/-! ## Call origination (`dialer/utils.py` lines 422-507, claim C9) -/

/-- Substring test on character lists (Python's `needle in haystack`). -/
def listContainsSub (needle : List Char) : List Char → Bool
  | [] => needle.isPrefixOf ([] : List Char)
  | c :: t => needle.isPrefixOf (c :: t) || listContainsSub needle t

/-- The value `originate_call`/`build_originate_command` return, as Python
sees it: most paths return a 2-tuple, but the final `except` branch of
`originate_call` returns the single boolean `False`. -/
inductive OriginateRet where
  | pair (ok : Bool) (call_uuid : Option String)
  | boolOnly (b : Bool)
deriving Repr, DecidableEq

/-- One `sip_h_X-<k>='<v>'` variable of the originate command. -/
def renderVar (kv : String × String) : String :=
  "sip_h_X-" ++ kv.1 ++ "='" ++ kv.2 ++ "'"

/-- `build_originate_command` (`dialer/utils.py` lines 462-507): assemble
the originate line; any exception inside (a `None` payload raising
`TypeError` on `payload['call_id']`, or a missing extension raising
`KeyError` in `get_agent_extension` when `auto_bridge` is set) is caught
and `None` is returned.  The payload dict is an association list; the
extension mapping is passed in (`AGENT_EXTENSION_MAPPING`). -/
def build_originate_command (call_id phone_number : String) (park : Bool)
    (agent_id : Option String) (payload : Option (List (String × String)))
    (auto_bridge : Bool) (extMap : List (String × String))
    (envProd : Bool) (originate_timeout : Nat) : Option String :=
  match payload with
  | none => none
  | some kvs0 =>
    let kvs1 := kvs0 ++ [("call_id", call_id), ("origination_uuid", call_id)]
    let kvs2 := match agent_id with
      | some a => kvs1 ++ [("agent_id", a)]
      | none => kvs1
    let appVars : String × List (String × String) :=
      if park then
        ("&park", kvs2 ++ [("originate_timeout", toString originate_timeout)])
      else ("&bridge", kvs2)
    let bridgeInfo : Option (String × List (String × String)) :=
      if auto_bridge then
        match hget extMap (pyStr agent_id) with
        | some ext =>
          some ("(user/" ++ ext ++ ")",
            appVars.2 ++ [("auto_bridge", "true")])
        | none => none
      else some ("", appVars.2)
    match bridgeInfo with
    | none => none
    | some bi =>
      let var_string := String.intercalate "," (bi.2.map renderVar)
      let call_string :=
        if envProd then "sofia/external/" ++ phone_number
        else "user/" ++ phone_number
      some ("originate \x7b" ++ var_string ++ "\x7d" ++ call_string ++ " " ++
        appVars.1 ++ bi.1)

/-- `originate_call` (`dialer/utils.py` lines 422-459): build the command
(raising when the build returned a falsy value), send it over `bgapi`
(whose response is `bgapiResp`; the adapter returns `None` instead of
raising), and return `(True, call_uuid)` when the response contains
`+OK`, `(False, None)` otherwise — except that the `except` branch
returns the bare boolean `False`.  `call_uuid` models the freshly
generated `uuid.uuid4()`. -/
def originate_call (phone_number : String) (park : Bool)
    (agent_id : Option String) (payload : Option (List (String × String)))
    (auto_bridge : Bool) (extMap : List (String × String)) (envProd : Bool)
    (originate_timeout : Nat) (call_uuid : String)
    (bgapiResp : Option String) : OriginateRet :=
  match build_originate_command call_uuid phone_number park agent_id
      payload auto_bridge extMap envProd originate_timeout with
  | none => OriginateRet.boolOnly false
  | some _cmd =>
    match bgapiResp with
    | none => OriginateRet.pair false none
    | some r =>
      if listContainsSub "+OK".data r.data then
        OriginateRet.pair true (some call_uuid)
      else OriginateRet.pair false none

/-! ## Module names and the waiting-queue helpers (claim C10) -/

/-- The names bound at module level by `events/utils.py`: its imports
(lines 1-7) and its function definitions, transcribed from the source.
`from events.utils import X` can only succeed for names in this list. -/
def events_utils_module_names : List String :=
  ["json", "sync_to_db",
   "ACTIVE_CALL_LOCK_REDIS_KEY", "SYNC_TO_DB_LOCK_REDIS_KEY", "conn",
   "AGENT_STATE_REDIS_KEY", "SALES_AGENT_QUEUE_REDIS_KEY",
   "SUPPORT_AGENT_QUEUE_REDIS_KEY", "AGENT_STATE_LOCK_REDIS_KEY",
   "SLEEP", "LOCK_TIMEOUTS", "ACTIVE_CALLS_REDIS_KEY",
   "logging", "time", "fs_manager",
   "add_call_to_completed_list", "add_sales_agent_to_queue",
   "get_agent_team", "add_support_agent_to_queue",
   "get_pending_support_agent", "get_pending_sales_agent",
   "get_next_available_support_agent", "get_next_available_sales_agent",
   "add_to_priority_queue_mapping", "get_agent_extension",
   "logger", "FS_TO_DJANGO_STATUS",
   "mark_agent_logged_in_cache", "mark_agent_idle_in_cache",
   "mark_agent_busy_in_cache", "is_agent_idle_in_cache",
   "get_all_idle_agents_in_cache", "remove_agent_from_cache",
   "add_active_call_in_cache", "update_active_call_in_cache",
   "remove_active_call_in_cache", "bridge_call", "bridge_agent_to_call",
   "connect_agent_to_call", "disconnect_call", "transfer_call",
   "handle_no_available_sales_agents", "handle_free_agent",
   "map_call_status", "sync_to_db_wrapper", "call_ending_routine"]

/-- The names `events/tasks.py` line 16 imports `from .utils`. -/
def events_tasks_utils_imports : List String :=
  ["connect_agent_to_call", "disconnect_call", "is_agent_idle_in_cache",
   "mark_agent_busy_in_cache", "sync_to_db_wrapper", "transfer_call",
   "update_active_call_in_cache", "bridge_agent_to_call",
   "mark_agent_idle_in_cache", "map_call_status", "call_ending_routine",
   "handle_free_agent", "add_customer_to_waiting_queue",
   "remove_customer_from_waiting_queue",
   "get_next_customer_waiting_in_queue"]

/-- Every module-level `def` name in the repository's Python sources
(all files under the project), transcribed from the source tree. -/
def repo_module_level_def_names : List String :=
  ["_normalize_phone", "_process_csv", "_serialize_campaign",
   "_serialize_import_log", "_serialize_lead", "acquire_dialer_lock",
   "activate_campaign", "add_active_call_in_cache", "add_agent_to_set",
   "add_call_to_completed_list", "add_lead_back_to_queue",
   "add_sales_agent_to_queue", "add_secondary_sales_agent_to_queue",
   "add_support_agent_to_queue", "add_to_agent_queue_mapping",
   "add_to_priority_queue_mapping", "agent_login", "bridge_agent_to_call",
   "bridge_call", "build_originate_command", "call_ending_routine",
   "check_and_refill_queue", "connect_agent_to_call",
   "construct_queue_object", "create_campaign", "debug_task",
   "disconnect_call", "dispatch_event_handler", "get_agent_extension",
   "get_agent_extension_mapping", "get_agent_extension_mapping_from_cache",
   "get_agent_state", "get_agent_team", "get_all_active_calls",
   "get_all_active_sales_calls", "get_all_agent_states",
   "get_all_idle_agents", "get_all_idle_agents_in_cache",
   "get_all_idle_sales_agents", "get_all_idle_support_agents",
   "get_and_clear_completed_calls", "get_aquisition_set",
   "get_campaign_stats", "get_next_available_sales_agent",
   "get_next_available_secondary_sales_agent",
   "get_next_available_support_agent", "get_pending_sales_agent",
   "get_pending_support_agent", "get_priority_queue_mapping",
   "handle_free_agent", "handle_no_available_sales_agents",
   "initiate_dialer_cycle", "is_agent_idle_in_cache", "list_campaigns",
   "list_leads", "make_outbound_call_helper",
   "make_outbound_call_helper_aquisition", "map_call_status",
   "mark_agent_busy_in_cache", "mark_agent_idle_in_cache",
   "mark_agent_logged_in_cache", "mock_conn", "mock_event_obj",
   "mock_fs_manager", "mock_logger", "originate_call",
   "peek_next_available_sales_agent", "process_aquisition_queue",
   "process_priority_queue", "process_secondary_queue", "refill_queue",
   "release_dialer_lock", "remove_active_call",
   "remove_active_call_in_cache", "remove_agent_from_cache",
   "remove_agent_from_sales_queue", "remove_agent_from_support_queue",
   "start_esl_listener", "sync_to_db", "sync_to_db_wrapper",
   "transfer_call", "update_active_call_in_cache", "upload_csv",
   "validate_and_cleanup_agent_states", "waiting_room_task"]

/-- Python's `from M import a, b, c`: fails with an ImportError naming the
first listed name that the module does not bind. -/
def pythonFromImport (required provided : List String) :
    Except String Unit :=
  match required.find? (fun n => !(provided.contains n)) with
  | some n => Except.error n
  | none => Except.ok ()

/-! ## The secondary (predictive) dialer pass
(`dialer/tasks.py` lines 187-248, `dialer/utils.py` lines 289-362,
claim C6) -/

/-- Python's `int(x)` conversion: truncation toward zero. -/
def pyInt (x : ℚ) : ℤ := if 0 ≤ x then ⌊x⌋ else ⌈x⌉

/-- `dial_multiplier = max(1, int(1 / pickup_ratio))`
(`dialer/tasks.py` line 207). -/
def dial_multiplier (pickup_ratio : ℚ) : ℤ :=
  max 1 (pyInt (1 / pickup_ratio))

/-- Modelled from the spec: `DEFAULT_PICKUP_RATIO` lives in the
`voice_orchestrator.constants` module, which is not among the source
files; the spec (§4.4) gives its default value 0.3. -/
def defaultPickupRatio : ℚ := 3 / 10

/-- One `originate_call` attempt issued by the outbound-call helper, with
the variables the command carried and whether `bgapi` accepted it. -/
structure OriginateAction where
  agent_id : Option String
  phone_number : String
  payload : QueueObject
  park : Bool
  auto_bridge : Bool
  call_uuid : String
  ok : Bool
deriving Repr, DecidableEq

/-- The payload stripping of `make_outbound_call_helper` (lines 317-319):
`last_order_details` and `metadata` are popped. -/
def stripPayload (q : QueueObject) : QueueObject :=
  { q with last_order_details := none, metadata := none }

/-- What `make_outbound_call_helper` returns (`calls_dialed`,
`leads_left`) together with the cache it mutated and traces of the
originates attempted and the `mark_agent_busy_in_cache` calls made. -/
structure HelperResult where
  calls_dialed : Nat
  leads_left : List QueueObject
  cache : Cache
  actions : List OriginateAction
  busyMarks : List (String × Option String)
deriving Repr, DecidableEq

/-- `zrange(q, 0, 0)`: the member with the least score (ties broken
lexicographically, as Redis orders them). -/
def zpeekmin (q : List (String × Nat)) : Option String :=
  match q with
  | [] => none
  | p :: rest =>
    some ((rest.foldl (fun best x =>
      if x.2 < best.2 ∨ (x.2 = best.2 ∧ x.1 < best.1) then x else best)
      p).1)

/-- The active-call record `make_outbound_call_helper` stores on a
successful originate (lines 350-356). -/
def helperActiveCall (agent_id phone : String) (payload : QueueObject)
    (call_uuid : String) (now : Nat) : ActiveCall :=
  { agent_id := if agent_id = "0" then none else some agent_id,
    phone_number := some phone, payload := some payload,
    call_uuid := call_uuid, initiated_at := some now,
    connected_at := none }

/-- The `for call_number in range(min(calls_to_make, len(leads)))` loop of
`make_outbound_call_helper` (lines 312-362).  `fuel` is the remaining
iteration count, `iter` indexes the originate oracles (`origOk` = "the
bgapi response contained +OK", `uuidGen` = the generated `uuid4`),
`removed` is the once-per-batch flag, `cd` is `calls_dialed`.  A lead
with no phone number is dropped; a failed originate leaves the lead at
the head; the first successful originate removes the agent from the sales
queue and marks it busy (with the call id when `auto_bridge`, with null
otherwise), aborting the batch if the mark fails. -/
def make_outbound_call_loop (agent_id : String) (auto_bridge park : Bool)
    (origOk : Nat → Bool) (uuidGen : Nat → String) (now : Nat) :
    Nat → Nat → Bool → Nat → List QueueObject → Cache →
    List OriginateAction → List (String × Option String) → HelperResult
  | 0, _, _, cd, queue, s, actions, busies =>
    ⟨cd, queue, s, actions, busies⟩
  | _ + 1, _, _, cd, [], s, actions, busies =>
    ⟨cd, [], s, actions, busies⟩
  | fuel + 1, iter, removed, cd, lead :: rest, s, actions, busies =>
    let payload := stripPayload lead
    match lead.phone_number with
    | none =>
      make_outbound_call_loop agent_id auto_bridge park origOk uuidGen now
        fuel (iter + 1) removed cd rest s actions busies
    | some phone =>
      let call_uuid := uuidGen iter
      let ok := origOk iter
      let act : OriginateAction :=
        ⟨some agent_id, phone, payload, park, auto_bridge, call_uuid, ok⟩
      let newCall := helperActiveCall agent_id phone payload call_uuid now
      if ok then
        if removed then
          make_outbound_call_loop agent_id auto_bridge park origOk uuidGen
            now fuel (iter + 1) true (cd + 1) rest
            { s with active_calls := hset s.active_calls call_uuid newCall }
            (actions ++ [act]) busies
        else
          let s1 : Cache := { s with sales_queue := zrem s.sales_queue agent_id }
          let cidArg : Option String :=
            if auto_bridge then some call_uuid else none
          let mb := mark_agent_busy_in_cache agent_id cidArg s1
          match mb.2 with
          | none =>
            ⟨cd, lead :: rest,
             { mb.1 with sales_queue := zadd mb.1.sales_queue agent_id now },
             actions ++ [act], busies⟩
          | some _ =>
            make_outbound_call_loop agent_id auto_bridge park origOk
              uuidGen now fuel (iter + 1) true (cd + 1) rest
              { mb.1 with
                active_calls := hset mb.1.active_calls call_uuid newCall }
              (actions ++ [act]) (busies ++ [(agent_id, cidArg)])
      else
        make_outbound_call_loop agent_id auto_bridge park origOk uuidGen
          now fuel (iter + 1) removed cd (lead :: rest) s
          (actions ++ [act]) busies

/-- `make_outbound_call_helper` (`dialer/utils.py` lines 289-362):
`auto_bridge = (calls_to_make == 1)`, `park = (calls_to_make > 1)`; the
`agent_id == '0'` branch (priority path) peeks the sales queue; then the
dial loop runs `min(calls_to_make, len(leads))` times. -/
def make_outbound_call_helper (agent_id : String)
    (leads : List QueueObject) (calls_to_make : Nat)
    (origOk : Nat → Bool) (uuidGen : Nat → String) (now : Nat)
    (s : Cache) : HelperResult :=
  let auto_bridge := calls_to_make == 1
  let park := decide (calls_to_make > 1)
  if agent_id = "0" ∧ auto_bridge = true then
    match zpeekmin s.sales_queue with
    | none => ⟨0, leads, s, [], []⟩
    | some peeked =>
      if is_agent_idle_in_cache peeked false true s then
        make_outbound_call_loop peeked auto_bridge park origOk uuidGen now
          (min calls_to_make leads.length) 0 false 0 leads s [] []
      else
        ⟨0, leads, { s with sales_queue := zrem s.sales_queue peeked },
         [], []⟩
  else
    make_outbound_call_loop agent_id auto_bridge park origOk uuidGen now
      (min calls_to_make leads.length) 0 false 0 leads s [] []

/-- What one run of the secondary pass produces: the written-back
mapping, the cache, and the accumulated traces. -/
structure SecondaryPassResult where
  mapping : List (String × List QueueObject)
  cache : Cache
  actions : List OriginateAction
  busyMarks : List (String × Option String)
  calls_dialed : Nat
deriving Repr, DecidableEq

/-- The per-agent iteration of `process_secondary_queue`
(`dialer/tasks.py` lines 217-230): skip empty lead lists, skip agent id
`'0'`, skip agents failing `is_agent_idle_in_cache(check_call_id=True,
check_state=True)`; otherwise dial through
`make_outbound_call_helper(agent_id, leads, calls_to_make=m)`. -/
def process_secondary_entries (m : Nat) (origOk : String → Nat → Bool)
    (uuidGen : String → Nat → String) (now : Nat) :
    List (String × List QueueObject) → Cache → SecondaryPassResult
  | [], s => ⟨[], s, [], [], 0⟩
  | (aid, leads) :: rest, s =>
    if leads.isEmpty || aid == "0" ||
        !(is_agent_idle_in_cache aid true true s) then
      let r := process_secondary_entries m origOk uuidGen now rest s
      { r with mapping := (aid, leads) :: r.mapping }
    else
      let h := make_outbound_call_helper aid leads m (origOk aid)
        (uuidGen aid) now s
      let r := process_secondary_entries m origOk uuidGen now rest h.cache
      { mapping := (aid, h.leads_left) :: r.mapping, cache := r.cache,
        actions := h.actions ++ r.actions,
        busyMarks := h.busyMarks ++ r.busyMarks,
        calls_dialed := h.calls_dialed + r.calls_dialed }

/-- Cache with one idle sales agent, for the C6 scenario. -/
def c6State : Cache := runOps [AgentOp.login "a1" "sales"] 0 Cache.initial

/-- The lead dialed in the C6 scenario. -/
def c6Lead : QueueObject :=
  { lead_id := 51, phone_number := some "03009998877",
    last_order_details := none, metadata := none }

/-! ## The lead store and queue refill (`dialer/tasks.py` lines 344-501,
claim C8) -/

/-- A `Lead` row as refill touches it (`dialer/models.py`). -/
structure LeadRow where
  id : Nat
  campaign_id : Nat
  status : String
  phone_number : Option String
  last_order_details : Option String
  metadata : Option String
deriving Repr, DecidableEq

/-- A `Campaign` row as refill touches it. -/
structure CampaignRow where
  id : Nat
  segment : String
  agent_id : Option Nat
  active : Bool
deriving Repr, DecidableEq

/-- The relational lead store. -/
structure DialerDb where
  campaigns : List CampaignRow
  leads : List LeadRow
deriving Repr, DecidableEq

/-- The Redis state refill touches: the `AGENT_LEAD_MAPPING` hash and the
`AQUISITION_AGENTS` set. -/
structure RefillState where
  agent_lead_mapping : List (String × List QueueObject)
  aquisition_agents : List Nat
deriving Repr, DecidableEq

/-- The `segment_order` Case expression of `refill_queue`
(`dialer/tasks.py` lines 353-362). -/
def segment_rank (seg : String) : Nat :=
  if seg = "follow_up" then 0
  else if seg = "active" then 1
  else if seg = "growth" then 2
  else if seg = "active_churn" then 3
  else if seg = "growth_churn" then 4
  else if seg = "acquisition" then 5
  else 6

/-- `construct_queue_object` (`dialer/utils.py` lines 236-262), restricted
to the fields this model carries. -/
def construct_queue_object (lead : LeadRow) : QueueObject :=
  { lead_id := lead.id, phone_number := lead.phone_number,
    last_order_details := lead.last_order_details,
    metadata := lead.metadata }

/-- `active_campaign.leads.filter(status='pending')`. -/
def pending_leads_of (db : DialerDb) (c : CampaignRow) : List LeadRow :=
  db.leads.filter (fun l => l.campaign_id == c.id && l.status == "pending")

/-- `Campaign.objects.filter(active=True, leads__status='pending')
.annotate(segment_rank).order_by('segment_rank').distinct()`. -/
def sorted_active_campaigns (db : DialerDb) : List CampaignRow :=
  (db.campaigns.filter (fun c => c.active &&
    db.leads.any (fun l => l.campaign_id == c.id && l.status == "pending")))
  |>.mergeSort (fun a b => segment_rank a.segment ≤ segment_rank b.segment)

/-- `defaultdict(list)` append. -/
def dd_append (m : List (Nat × List QueueObject)) (k : Nat)
    (v : QueueObject) : List (Nat × List QueueObject) :=
  if m.any (fun p => p.1 == k) then
    m.map (fun p => if p.1 == k then (p.1, p.2 ++ [v]) else p)
  else m ++ [(k, [v])]

/-- `add_agent_to_set` (`dialer/tasks.py` lines 472-501): add the agent id
to the `AQUISITION_AGENTS` set (set semantics: no duplicates). -/
def add_agent_to_set (agent_id : Nat) (rs : RefillState) : RefillState :=
  if rs.aquisition_agents.contains agent_id then rs
  else { rs with aquisition_agents := rs.aquisition_agents ++ [agent_id] }

/-- The in-memory build accumulated by `refill_queue`'s campaign loop. -/
structure RefillBuild where
  new_queue : List (Nat × List QueueObject)
  rs : RefillState
  lead_ids : List Nat
deriving Repr, DecidableEq

/-- One iteration of the per-lead loop of `refill_queue` (lines 378-392);
the boolean is the per-campaign `added` flag. -/
def refill_build_lead (c : CampaignRow) (acc : RefillBuild × Bool)
    (lead : LeadRow) : RefillBuild × Bool :=
  let b := acc.1
  let added := acc.2
  let b := { b with lead_ids := b.lead_ids ++ [lead.id] }
  let qo := construct_queue_object lead
  let agent_id := c.agent_id.getD 0
  if c.segment = "acquisition" then
    let b := { b with new_queue := dd_append b.new_queue 0 qo }
    if added then (b, true)
    else ({ b with rs := add_agent_to_set agent_id b.rs }, true)
  else
    ({ b with new_queue := dd_append b.new_queue agent_id qo }, added)

/-- The campaign loop of `refill_queue` (lines 374-392). -/
def refill_build (db : DialerDb) (rs : RefillState) : RefillBuild :=
  (sorted_active_campaigns db).foldl
    (fun b c => ((pending_leads_of db c).foldl (refill_build_lead c)
      (b, false)).1)
    { new_queue := [], rs := rs, lead_ids := [] }

/-- `Lead.objects.filter(id__in=lead_ids, status='pending')
.update(status='in_queue', ...)` (lines 394-400): the new store and the
number of rows updated. -/
def refill_update_leads (db : DialerDb) (lead_ids : List Nat) :
    DialerDb × Nat :=
  ({ db with
     leads := db.leads.map (fun l =>
       if lead_ids.contains l.id && l.status == "pending" then
         { l with status := "in_queue" }
       else l) },
   (db.leads.filter (fun l =>
     lead_ids.contains l.id && l.status == "pending")).length)

/-- The merge of the freshly built buckets into the stored mapping, under
the secondary-queue lock (lines 405-429). -/
def refill_merge (new_queue : List (Nat × List QueueObject))
    (mapping : List (String × List QueueObject)) :
    List (String × List QueueObject) :=
  new_queue.foldl
    (fun m p =>
      match hget m (toString p.1) with
      | some lst => hset m (toString p.1) (lst ++ p.2)
      | none => hset m (toString p.1) p.2)
    mapping

/-- `refill_queue` (`dialer/tasks.py` lines 344-439): build the buckets
(adding acquisition agents to the set along the way), transition the
selected leads `pending → in_queue`, abort before the queue merge when
zero rows were updated, otherwise merge into `AGENT_LEAD_MAPPING`.
Returns the new store, the new Redis state and the updated-row count. -/
def refill_queue (db : DialerDb) (rs : RefillState) :
    DialerDb × RefillState × Nat :=
  if (refill_update_leads db (refill_build db rs).lead_ids).2 = 0 then
    ((refill_update_leads db (refill_build db rs).lead_ids).1,
     (refill_build db rs).rs, 0)
  else
    ((refill_update_leads db (refill_build db rs).lead_ids).1,
     { (refill_build db rs).rs with
       agent_lead_mapping := refill_merge (refill_build db rs).new_queue
         ((refill_build db rs).rs).agent_lead_mapping },
     (refill_update_leads db (refill_build db rs).lead_ids).2)

/-- "No active campaign has a pending lead" — the condition under which
refill selects nothing. -/
def NoPendingOnActive (db : DialerDb) : Prop :=
  ∀ c ∈ db.campaigns, c.active = true →
    ∀ l ∈ db.leads, l.campaign_id = c.id → l.status ≠ "pending"

/-- Concrete lead snapshot used in the C4 scenario. -/
def c4Lead : QueueObject :=
  { lead_id := 41, phone_number := some "03001234567",
    last_order_details := none, metadata := none }

/-- A lead already queued in the agent's priority bucket before the C4
hangup arrives. -/
def c4OldLead : QueueObject :=
  { lead_id := 40, phone_number := some "03007654321",
    last_order_details := none, metadata := none }

/-- The active-call record popped by the C4 hangup. -/
def c4Call : ActiveCall :=
  { agent_id := some "a1", phone_number := some "03001234567",
    payload := some c4Lead, call_uuid := "u1", initiated_at := some 10,
    connected_at := none }

/-- Cache state before the C4 hangup: one active call, one lead already
in the agent's priority bucket. -/
def c4State : Cache :=
  { Cache.initial with
    active_calls := [("u1", c4Call)],
    priority_mapping := [("a1", [PQEntry.leadEntry c4OldLead])] }

/-! ## The hangup-cause → call-log status table (`events/utils.py`) -/

/-- `FS_TO_DJANGO_STATUS` (`events/utils.py` lines 11-33), transcribed
entry for entry. -/
def FS_TO_DJANGO_STATUS : List (String × String) :=
  [("NORMAL_CLEARING", "answered"),
   ("USER_BUSY", "busy"),
   ("CALL_REJECTED", "busy"),
   ("NO_ANSWER", "no_answer"),
   ("NO_USER_RESPONSE", "no_answer"),
   ("PROGRESS_TIMEOUT", "no_answer"),
   ("RECOVERY_ON_TIMER", "failed"),
   ("ORIGINATOR_CANCEL", "cancelled"),
   ("LOSE_RACE", "failed"),
   ("UNALLOCATED_NUMBER", "invalid"),
   ("INVALID_NUMBER_FORMAT", "invalid"),
   ("NO_ROUTE_DESTINATION", "invalid")]

/-- `map_call_status` (`events/utils.py` lines 398-399):
`FS_TO_DJANGO_STATUS.get(hangup_cause)`. -/
def map_call_status (hangup_cause : String) : Option String :=
  hget FS_TO_DJANGO_STATUS hangup_cause

/-- The mapping exactly as the specification's sentence states it
(refinement target for claim C2, written from the spec's words). -/
def claimedStatusMap (c : String) : Option String :=
  if c = "NORMAL_CLEARING" then some "answered"
  else if c = "USER_BUSY" ∨ c = "CALL_REJECTED" then some "busy"
  else if c = "NO_ANSWER" ∨ c = "NO_USER_RESPONSE" ∨ c = "PROGRESS_TIMEOUT" then
    some "no_answer"
  else if c = "RECOVERY_ON_TIMER" ∨ c = "LOSE_RACE" then some "failed"
  else if c = "ORIGINATOR_CANCEL" then some "cancelled"
  else if c = "UNALLOCATED_NUMBER" ∨ c = "INVALID_NUMBER_FORMAT" ∨
          c = "NO_ROUTE_DESTINATION" then some "invalid"
  else none

end Telebook

namespace Telebook

/-- C2 (confirmed): the hangup-cause → status mapping implemented by
`map_call_status` agrees with the spec's table on every hangup cause:
`NORMAL_CLEARING ↦ answered`; `USER_BUSY, CALL_REJECTED ↦ busy`;
`NO_ANSWER, NO_USER_RESPONSE, PROGRESS_TIMEOUT ↦ no_answer`;
`RECOVERY_ON_TIMER, LOSE_RACE ↦ failed`; `ORIGINATOR_CANCEL ↦ cancelled`;
`UNALLOCATED_NUMBER, INVALID_NUMBER_FORMAT, NO_ROUTE_DESTINATION ↦
invalid`; every other cause ↦ `none`. -/
theorem C2_status_mapping_exact (c : String) :
    map_call_status c = claimedStatusMap c := by
  rcases eq_or_ne c "NORMAL_CLEARING" with rfl | h1
  · decide
  rcases eq_or_ne c "USER_BUSY" with rfl | h2
  · decide
  rcases eq_or_ne c "CALL_REJECTED" with rfl | h3
  · decide
  rcases eq_or_ne c "NO_ANSWER" with rfl | h4
  · decide
  rcases eq_or_ne c "NO_USER_RESPONSE" with rfl | h5
  · decide
  rcases eq_or_ne c "PROGRESS_TIMEOUT" with rfl | h6
  · decide
  rcases eq_or_ne c "RECOVERY_ON_TIMER" with rfl | h7
  · decide
  rcases eq_or_ne c "ORIGINATOR_CANCEL" with rfl | h8
  · decide
  rcases eq_or_ne c "LOSE_RACE" with rfl | h9
  · decide
  rcases eq_or_ne c "UNALLOCATED_NUMBER" with rfl | h10
  · decide
  rcases eq_or_ne c "INVALID_NUMBER_FORMAT" with rfl | h11
  · decide
  rcases eq_or_ne c "NO_ROUTE_DESTINATION" with rfl | h12
  · decide
  simp [map_call_status, hget, FS_TO_DJANGO_STATUS, List.find?,
    claimedStatusMap, h1, h2, h3, h4, h5, h6, h7, h8, h9, h10, h11, h12,
    beq_eq_false_iff_ne.mpr (Ne.symm h1), beq_eq_false_iff_ne.mpr (Ne.symm h2),
    beq_eq_false_iff_ne.mpr (Ne.symm h3), beq_eq_false_iff_ne.mpr (Ne.symm h4),
    beq_eq_false_iff_ne.mpr (Ne.symm h5), beq_eq_false_iff_ne.mpr (Ne.symm h6),
    beq_eq_false_iff_ne.mpr (Ne.symm h7), beq_eq_false_iff_ne.mpr (Ne.symm h8),
    beq_eq_false_iff_ne.mpr (Ne.symm h9),
    beq_eq_false_iff_ne.mpr (Ne.symm h10),
    beq_eq_false_iff_ne.mpr (Ne.symm h11),
    beq_eq_false_iff_ne.mpr (Ne.symm h12)]

/-! ## Association-list and sorted-set lemmas -/

theorem find?_key_filter_ne {β : Type} (l : List (String × β)) (k k' : String)
    (h : k' ≠ k) :
    (l.filter fun p => p.1 != k).find? (fun p => p.1 == k') =
      l.find? (fun p => p.1 == k') := by
  induction l with
  | nil => rfl
  | cons a t ih =>
    by_cases ha : a.1 = k
    · have hk : (a.1 == k') = false := by
        rw [ha]; exact beq_eq_false_iff_ne.mpr (Ne.symm h)
      have hf : (a.1 != k) = false := by simp [ha]
      simp [List.filter_cons, hf, hk, ih]
    · have hf : (a.1 != k) = true := by simp [ha]
      by_cases hk : a.1 = k'
      · simp [List.filter_cons, hf, hk, h]
      · have hk2 : (a.1 == k') = false := beq_eq_false_iff_ne.mpr hk
        simp [List.filter_cons, hf, hk2, ih]

theorem hget_hset {β : Type} (l : List (String × β)) (k k' : String) (v : β) :
    hget (hset l k v) k' = if k' = k then some v else hget l k' := by
  by_cases h : k' = k
  · subst h
    have hnone : (l.filter fun p => p.1 != k').find? (fun p => p.1 == k') =
        none := by
      rw [List.find?_eq_none]
      intro x hx
      have := (List.mem_filter.mp hx).2
      simpa using this
    simp [hget, hset, List.find?_append, hnone, List.find?]
  · have hsingle : (List.find? (fun p => p.1 == k') [(k, v)]) = none := by
      simp [List.find?, beq_eq_false_iff_ne.mpr (Ne.symm h)]
    simp [hget, hset, List.find?_append, hsingle, find?_key_filter_ne l k k' h,
      h]

theorem hget_hdel {β : Type} (l : List (String × β)) (k k' : String) :
    hget (hdel l k) k' = if k' = k then none else hget l k' := by
  by_cases h : k' = k
  · subst h
    have hnone : (l.filter fun p => p.1 != k').find? (fun p => p.1 == k') =
        none := by
      rw [List.find?_eq_none]
      intro x hx
      have := (List.mem_filter.mp hx).2
      simpa using this
    simp [hget, hdel, hnone]
  · simp [hget, hdel, find?_key_filter_ne l k k' h, h]

theorem zmem_zadd (q : List (String × Nat)) (m m' : String) (sc : Nat) :
    zmem (zadd q m sc) m' = if m' = m then true else zmem q m' := by
  by_cases h : m' = m
  · subst h; simp [zmem, zadd]
  · have hb : (m == m') = false := beq_eq_false_iff_ne.mpr (Ne.symm h)
    have hfun : ∀ p : String × Nat, ((p.1 != m) && (p.1 == m')) =
        (p.1 == m') := by
      intro p
      by_cases hp : p.1 = m'
      · simp [hp, h]
      · simp [beq_eq_false_iff_ne.mpr hp]
    simp only [zmem, zadd, List.any_append, List.any_filter, List.any_cons,
      List.any_nil, hb, Bool.or_false, if_neg h, hfun]

theorem zmem_zrem (q : List (String × Nat)) (m m' : String) :
    zmem (zrem q m) m' = if m' = m then false else zmem q m' := by
  by_cases h : m' = m
  · subst h
    have hfun : ∀ p : String × Nat, ((p.1 != m') && (p.1 == m')) = false := by
      intro p
      by_cases hp : p.1 = m' <;> simp [hp]
    simp [zmem, zrem, List.any_filter, hfun]
  · have hfun : ∀ p : String × Nat, ((p.1 != m) && (p.1 == m')) =
        (p.1 == m') := by
      intro p
      by_cases hp : p.1 = m'
      · simp [hp, h]
      · simp [beq_eq_false_iff_ne.mpr hp]
    simp only [zmem, zrem, List.any_filter, if_neg h, hfun]

/-! ## Queue-selection lemmas -/

theorem setCodeQueue_codeQueue (s : Cache) (tt u : String)
    (q : List (String × Nat)) :
    (s.setCodeQueue tt q).codeQueue u =
      if teamQueueKeyIsSales u = teamQueueKeyIsSales tt then q
      else s.codeQueue u := by
  by_cases h1 : teamQueueKeyIsSales tt = true <;>
  by_cases h2 : teamQueueKeyIsSales u = true <;>
  simp [Cache.setCodeQueue, Cache.codeQueue, h1, h2]

theorem setCodeQueue_otherQueue (s : Cache) (tt u : String)
    (q : List (String × Nat)) :
    (s.setCodeQueue tt q).otherQueue u =
      if teamQueueKeyIsSales u = teamQueueKeyIsSales tt then s.otherQueue u
      else q := by
  by_cases h1 : teamQueueKeyIsSales tt = true <;>
  by_cases h2 : teamQueueKeyIsSales u = true <;>
  simp [Cache.setCodeQueue, Cache.otherQueue, h1, h2]

theorem setCodeQueue_sales_queue (s : Cache) (tt : String)
    (q : List (String × Nat)) :
    (s.setCodeQueue tt q).sales_queue =
      if teamQueueKeyIsSales tt = true then q else s.sales_queue := by
  by_cases h1 : teamQueueKeyIsSales tt = true <;>
  simp [Cache.setCodeQueue, h1]

theorem setCodeQueue_support_queue (s : Cache) (tt : String)
    (q : List (String × Nat)) :
    (s.setCodeQueue tt q).support_queue =
      if teamQueueKeyIsSales tt = true then s.support_queue else q := by
  by_cases h1 : teamQueueKeyIsSales tt = true <;>
  simp [Cache.setCodeQueue, h1]

theorem setCodeQueue_agent_states (s : Cache) (tt : String)
    (q : List (String × Nat)) :
    (s.setCodeQueue tt q).agent_states = s.agent_states := by
  by_cases h1 : teamQueueKeyIsSales tt = true <;>
  simp [Cache.setCodeQueue, h1]

theorem setCodeQueue_secondary (s : Cache) (tt : String)
    (q : List (String × Nat)) :
    (s.setCodeQueue tt q).secondary_sales_queue = s.secondary_sales_queue := by
  by_cases h1 : teamQueueKeyIsSales tt = true <;>
  simp [Cache.setCodeQueue, h1]

theorem codeQueue_congr (s : Cache) {u t : String}
    (h : teamQueueKeyIsSales u = teamQueueKeyIsSales t) :
    s.codeQueue u = s.codeQueue t := by
  simp [Cache.codeQueue, h]

theorem otherQueue_congr (s : Cache) {u t : String}
    (h : teamQueueKeyIsSales u = teamQueueKeyIsSales t) :
    s.otherQueue u = s.otherQueue t := by
  simp [Cache.otherQueue, h]

theorem otherQueue_of_both_false (s : Cache) (tt a : String)
    (hs : zmem s.sales_queue a = false) (hp : zmem s.support_queue a = false) :
    zmem (s.otherQueue tt) a = false := by
  by_cases h1 : teamQueueKeyIsSales tt = true <;>
  simp [Cache.otherQueue, h1, hs, hp]

theorem codeQueue_of_both_false (s : Cache) (tt a : String)
    (hs : zmem s.sales_queue a = false) (hp : zmem s.support_queue a = false) :
    zmem (s.codeQueue tt) a = false := by
  by_cases h1 : teamQueueKeyIsSales tt = true <;>
  simp [Cache.codeQueue, h1, hs, hp]

theorem idleQueueCount_split (s : Cache) (tt aid : String) :
    idleQueueCount s aid =
      (if zmem (s.codeQueue tt) aid then 1 else 0) +
      (if zmem (s.otherQueue tt) aid then 1 else 0) +
      (if zmem s.secondary_sales_queue aid then 1 else 0) := by
  by_cases h1 : teamQueueKeyIsSales tt = true
  · simp [idleQueueCount, Cache.codeQueue, Cache.otherQueue, h1]
  · simp [idleQueueCount, Cache.codeQueue, Cache.otherQueue, h1]
    ring

/-! ## Preservation of the agent state-machine invariant -/

theorem agentInv_idle_update (s : Cache) (a tt : String) (ci : Option Nat)
    (now : Nat) (hInv : AgentInv s)
    (hother : zmem (s.otherQueue tt) a = false) :
    AgentInv (Cache.setCodeQueue
      { s with
        agent_states := hset s.agent_states a ⟨"idle", none, tt, ci⟩ }
      tt (zadd (s.codeQueue tt) a now)) := by
  obtain ⟨hsec, hrow, hnone⟩ := hInv
  refine ⟨?_, ?_, ?_⟩
  · rw [setCodeQueue_secondary]; exact hsec
  · intro aid d hd
    rw [setCodeQueue_agent_states] at hd
    simp only [hget_hset] at hd
    by_cases haid : aid = a
    · rw [if_pos haid] at hd
      obtain rfl := Option.some.inj hd
      refine ⟨?_, fun _ => rfl, ?_⟩
      · subst haid
        rw [setCodeQueue_codeQueue, if_pos rfl, zmem_zadd, if_pos rfl]
        simp
      · subst haid
        rw [setCodeQueue_otherQueue, if_pos rfl]
        exact hother
    · rw [if_neg haid] at hd
      obtain ⟨h1, h2, h3⟩ := hrow aid d hd
      refine ⟨?_, h2, ?_⟩
      · rw [setCodeQueue_codeQueue]
        by_cases hflag : teamQueueKeyIsSales d.team = teamQueueKeyIsSales tt
        · rw [if_pos hflag, zmem_zadd, if_neg haid,
            ← codeQueue_congr s hflag]
          exact h1
        · rw [if_neg hflag]
          exact h1
      · rw [setCodeQueue_otherQueue]
        by_cases hflag : teamQueueKeyIsSales d.team = teamQueueKeyIsSales tt
        · rw [if_pos hflag]
          exact h3
        · rw [if_neg hflag, zmem_zadd, if_neg haid]
          have : s.otherQueue d.team = s.codeQueue tt := by
            by_cases hu : teamQueueKeyIsSales d.team = true <;>
            by_cases hv : teamQueueKeyIsSales tt = true <;>
            simp [Cache.otherQueue, Cache.codeQueue, hu, hv] <;>
            simp [hu, hv] at hflag
          rw [← this]
          exact h3
  · intro aid h0
    rw [setCodeQueue_agent_states] at h0
    simp only [hget_hset] at h0
    by_cases haid : aid = a
    · rw [if_pos haid] at h0; cases h0
    · rw [if_neg haid] at h0
      obtain ⟨hs1, hs2⟩ := hnone aid h0
      constructor
      · rw [setCodeQueue_sales_queue]
        by_cases h1 : teamQueueKeyIsSales tt = true
        · rw [if_pos h1, zmem_zadd, if_neg haid]
          simpa [Cache.codeQueue, h1] using hs1
        · rw [if_neg h1]
          simpa using hs1
      · rw [setCodeQueue_support_queue]
        by_cases h1 : teamQueueKeyIsSales tt = true
        · rw [if_pos h1]
          simpa using hs2
        · rw [if_neg h1, zmem_zadd, if_neg haid]
          simpa [Cache.codeQueue, h1] using hs2

theorem agentInv_busy_update (s : Cache) (a : String) (old : AgentData)
    (cid : Option String) (hInv : AgentInv s)
    (hold : hget s.agent_states a = some old) :
    AgentInv (Cache.setCodeQueue
      { s with
        agent_states :=
          hset s.agent_states a ⟨"busy", cid, old.team, old.call_initiated_at⟩ }
      old.team (zrem (s.codeQueue old.team) a)) := by
  obtain ⟨hsec, hrow, hnone⟩ := hInv
  refine ⟨?_, ?_, ?_⟩
  · rw [setCodeQueue_secondary]; exact hsec
  · intro aid d hd
    rw [setCodeQueue_agent_states] at hd
    simp only [hget_hset] at hd
    by_cases haid : aid = a
    · rw [if_pos haid] at hd
      obtain rfl := Option.some.inj hd
      refine ⟨?_, ?_, ?_⟩
      · subst haid
        rw [setCodeQueue_codeQueue, if_pos rfl, zmem_zrem, if_pos rfl]
        simp
      · intro h
        simp at h
      · subst haid
        rw [setCodeQueue_otherQueue, if_pos rfl]
        exact (hrow aid old hold).2.2
    · rw [if_neg haid] at hd
      obtain ⟨h1, h2, h3⟩ := hrow aid d hd
      refine ⟨?_, h2, ?_⟩
      · rw [setCodeQueue_codeQueue]
        by_cases hflag : teamQueueKeyIsSales d.team = teamQueueKeyIsSales old.team
        · rw [if_pos hflag, zmem_zrem, if_neg haid, ← codeQueue_congr s hflag]
          exact h1
        · rw [if_neg hflag]
          exact h1
      · rw [setCodeQueue_otherQueue]
        by_cases hflag : teamQueueKeyIsSales d.team = teamQueueKeyIsSales old.team
        · rw [if_pos hflag]
          exact h3
        · rw [if_neg hflag, zmem_zrem, if_neg haid]
          have heq : s.otherQueue d.team = s.codeQueue old.team := by
            by_cases hu : teamQueueKeyIsSales d.team = true <;>
            by_cases hv : teamQueueKeyIsSales old.team = true <;>
            simp [Cache.otherQueue, Cache.codeQueue, hu, hv] <;>
            simp [hu, hv] at hflag
          rw [← heq]
          exact h3
  · intro aid h0
    rw [setCodeQueue_agent_states] at h0
    simp only [hget_hset] at h0
    by_cases haid : aid = a
    · rw [if_pos haid] at h0; cases h0
    · rw [if_neg haid] at h0
      obtain ⟨hs1, hs2⟩ := hnone aid h0
      constructor
      · rw [setCodeQueue_sales_queue]
        by_cases h1 : teamQueueKeyIsSales old.team = true
        · rw [if_pos h1, zmem_zrem, if_neg haid]
          simpa [Cache.codeQueue, h1] using hs1
        · rw [if_neg h1]
          simpa using hs1
      · rw [setCodeQueue_support_queue]
        by_cases h1 : teamQueueKeyIsSales old.team = true
        · rw [if_pos h1]
          simpa using hs2
        · rw [if_neg h1, zmem_zrem, if_neg haid]
          simpa [Cache.codeQueue, h1] using hs2

theorem agentInv_logout_update (s : Cache) (a : String) (old : AgentData)
    (hInv : AgentInv s) (hold : hget s.agent_states a = some old) :
    AgentInv (Cache.setCodeQueue
      { s with agent_states := hdel s.agent_states a }
      old.team (zrem (s.codeQueue old.team) a)) := by
  obtain ⟨hsec, hrow, hnone⟩ := hInv
  refine ⟨?_, ?_, ?_⟩
  · rw [setCodeQueue_secondary]; exact hsec
  · intro aid d hd
    rw [setCodeQueue_agent_states] at hd
    simp only [hget_hdel] at hd
    by_cases haid : aid = a
    · rw [if_pos haid] at hd; cases hd
    · rw [if_neg haid] at hd
      obtain ⟨h1, h2, h3⟩ := hrow aid d hd
      refine ⟨?_, h2, ?_⟩
      · rw [setCodeQueue_codeQueue]
        by_cases hflag : teamQueueKeyIsSales d.team = teamQueueKeyIsSales old.team
        · rw [if_pos hflag, zmem_zrem, if_neg haid, ← codeQueue_congr s hflag]
          exact h1
        · rw [if_neg hflag]
          exact h1
      · rw [setCodeQueue_otherQueue]
        by_cases hflag : teamQueueKeyIsSales d.team = teamQueueKeyIsSales old.team
        · rw [if_pos hflag]
          exact h3
        · rw [if_neg hflag, zmem_zrem, if_neg haid]
          have heq : s.otherQueue d.team = s.codeQueue old.team := by
            by_cases hu : teamQueueKeyIsSales d.team = true <;>
            by_cases hv : teamQueueKeyIsSales old.team = true <;>
            simp [Cache.otherQueue, Cache.codeQueue, hu, hv] <;>
            simp [hu, hv] at hflag
          rw [← heq]
          exact h3
  · intro aid h0
    rw [setCodeQueue_agent_states] at h0
    simp only [hget_hdel] at h0
    by_cases haid : aid = a
    · subst haid
      obtain ⟨g1, g2, g3⟩ := hrow aid old hold
      have hcq : zmem (zrem (s.codeQueue old.team) aid) aid = false := by
        rw [zmem_zrem, if_pos rfl]
      constructor
      · rw [setCodeQueue_sales_queue]
        by_cases h1 : teamQueueKeyIsSales old.team = true
        · rw [if_pos h1]
          exact hcq
        · rw [if_neg h1]
          have : zmem (s.otherQueue old.team) aid = false := g3
          simpa [Cache.otherQueue, h1] using this
      · rw [setCodeQueue_support_queue]
        by_cases h1 : teamQueueKeyIsSales old.team = true
        · rw [if_pos h1]
          have : zmem (s.otherQueue old.team) aid = false := g3
          simpa [Cache.otherQueue, h1] using this
        · rw [if_neg h1]
          exact hcq
    · rw [if_neg haid] at h0
      obtain ⟨hs1, hs2⟩ := hnone aid h0
      constructor
      · rw [setCodeQueue_sales_queue]
        by_cases h1 : teamQueueKeyIsSales old.team = true
        · rw [if_pos h1, zmem_zrem, if_neg haid]
          simpa [Cache.codeQueue, h1] using hs1
        · rw [if_neg h1]
          simpa using hs1
      · rw [setCodeQueue_support_queue]
        by_cases h1 : teamQueueKeyIsSales old.team = true
        · rw [if_pos h1]
          simpa using hs2
        · rw [if_neg h1, zmem_zrem, if_neg haid]
          simpa [Cache.codeQueue, h1] using hs2

/-- Every state-machine operation preserves the invariant. -/
theorem agentInv_applyOp (op : AgentOp) (now : Nat) (s : Cache)
    (hInv : AgentInv s) : AgentInv (applyOp op now s) := by
  cases op with
  | login a t =>
    show AgentInv (mark_agent_logged_in_cache a t now s).1
    cases hr : hget s.agent_states a with
    | none =>
      have h0 := hInv.2.2 a hr
      simp only [mark_agent_logged_in_cache, hr]
      exact agentInv_idle_update s a t none now hInv
        (otherQueue_of_both_false s t a h0.1 h0.2)
    | some old =>
      simp only [mark_agent_logged_in_cache, hr]
      exact agentInv_idle_update s a old.team old.call_initiated_at now hInv
        (hInv.2.1 a old hr).2.2
  | markIdle a =>
    show AgentInv (mark_agent_idle_in_cache a now s).1
    cases hr : hget s.agent_states a with
    | none => simpa [mark_agent_idle_in_cache, hr] using hInv
    | some old =>
      simp only [mark_agent_idle_in_cache, hr]
      exact agentInv_idle_update s a old.team old.call_initiated_at now hInv
        (hInv.2.1 a old hr).2.2
  | markBusy a cid =>
    show AgentInv (mark_agent_busy_in_cache a cid s).1
    cases hr : hget s.agent_states a with
    | none => simpa [mark_agent_busy_in_cache, hr] using hInv
    | some old =>
      simp only [mark_agent_busy_in_cache, hr]
      exact agentInv_busy_update s a old cid hInv hr
  | logout a =>
    show AgentInv (remove_agent_from_cache a s).1
    cases hr : hget s.agent_states a with
    | none => simpa [remove_agent_from_cache, hr] using hInv
    | some old =>
      simp only [remove_agent_from_cache, hr]
      exact agentInv_logout_update s a old hInv hr

theorem agentInv_runOps (ops : List AgentOp) (t : Nat) (s : Cache)
    (hInv : AgentInv s) : AgentInv (runOps ops t s) := by
  induction ops generalizing t s with
  | nil => exact hInv
  | cons op rest ih => exact ih _ _ (agentInv_applyOp op t s hInv)

theorem agentInv_initial : AgentInv Cache.initial := by
  refine ⟨rfl, ?_, ?_⟩
  · intro aid d hd
    simp [hget, Cache.initial] at hd
  · intro aid _
    exact ⟨rfl, rfl⟩

/-- C1 counterexample: after a single `login("a7", "secondary_sales")` from
the empty initial state, the agent's state is `idle`, yet it is NOT a
member of the secondary-sales idle queue (its own team's queue, as the
claim reads) — the code put it in the support queue instead. -/
theorem C1_counterexample :
    hget c1CounterexampleState.agent_states "a7" =
      some { state := "idle", current_call_id := none,
             team := "secondary_sales", call_initiated_at := none } ∧
    zmem c1CounterexampleState.secondary_sales_queue "a7" = false ∧
    zmem c1CounterexampleState.support_queue "a7" = true := by
  refine ⟨rfl, rfl, rfl⟩

/-- C1 amended: after any finite sequence of agent state-machine
operations (login, mark-idle, mark-busy, logout) from the empty initial
state, an agent with a state row is `idle` exactly when it is a member of
the queue the code selects for its team — the sales queue for team
`sales`, and the support queue for every other team, including
`secondary_sales`; and an agent appears in exactly one idle queue iff
its state is `idle` and its `current_call_id` is null. -/
theorem C1_idle_iff_queue_amended (ops : List AgentOp) (t0 : Nat) :
    (∀ aid d,
      hget (runOps ops t0 Cache.initial).agent_states aid = some d →
      (d.state = "idle" ↔
        zmem ((runOps ops t0 Cache.initial).codeQueue d.team) aid = true)) ∧
    (∀ aid,
      idleQueueCount (runOps ops t0 Cache.initial) aid = 1 ↔
      ∃ d, hget (runOps ops t0 Cache.initial).agent_states aid = some d ∧
        d.state = "idle" ∧ d.current_call_id = none) := by
  obtain ⟨hsec, hrow, hnone⟩ :=
    agentInv_runOps ops t0 Cache.initial agentInv_initial
  refine ⟨fun aid d hd => (hrow aid d hd).1, fun aid => ?_⟩
  constructor
  · intro hcount
    cases hd : hget (runOps ops t0 Cache.initial).agent_states aid with
    | none =>
      exfalso
      obtain ⟨f1, f2⟩ := hnone aid hd
      rw [idleQueueCount, f1, f2, hsec] at hcount
      simp [zmem] at hcount
    | some d =>
      obtain ⟨h1, h2, h3⟩ := hrow aid d hd
      by_cases hidle : d.state = "idle"
      · exact ⟨d, rfl, hidle, h2 hidle⟩
      · exfalso
        have hcq : zmem ((runOps ops t0 Cache.initial).codeQueue d.team) aid =
            false := by
          cases hzm : zmem ((runOps ops t0 Cache.initial).codeQueue d.team) aid
          · rfl
          · exact absurd (h1.mpr hzm) hidle
        rw [idleQueueCount_split _ d.team aid, hcq, h3, hsec] at hcount
        simp [zmem] at hcount
  · rintro ⟨d, hd, hidle, -⟩
    obtain ⟨h1, _, h3⟩ := hrow aid d hd
    rw [idleQueueCount_split _ d.team aid, h1.mp hidle, h3, hsec]
    simp [zmem]

/-- Witness for C1: concretely, after `login("a1", "sales")` the agent
`a1` has an idle state row, sits in the code's queue for its team, and
appears in exactly one idle queue. -/
theorem C1_idle_iff_queue_amended_witness :
    zmem ((runOps [AgentOp.login "a1" "sales"] 0 Cache.initial).codeQueue
      "sales") "a1" = true ∧
    idleQueueCount (runOps [AgentOp.login "a1" "sales"] 0 Cache.initial)
      "a1" = 1 := by
  have h := C1_idle_iff_queue_amended [AgentOp.login "a1" "sales"] 0
  refine ⟨?_, ?_⟩
  · exact (h.1 "a1"
      { state := "idle", current_call_id := none, team := "sales",
        call_initiated_at := none } rfl).mp rfl
  · exact (h.2 "a1").mpr
      ⟨{ state := "idle", current_call_id := none, team := "sales",
         call_initiated_at := none }, rfl, rfl, rfl⟩

/-- C3 (code_bug): `mark_agent_busy_in_cache` with a null call id leaves
`call_initiated_at` unset — the row after login + mark-busy(null) carries
no timestamp at all (the function's update dict only touches `state` and
`current_call_id`), although the reaper's own docstring and branch read
it.  The absent-row half of the claim does hold: on a logged-out agent
the call returns `none` and changes nothing. -/
theorem C3_mark_busy_drops_call_initiated_at :
    hget busyNullCallState.agent_states "a2" =
      some { state := "busy", current_call_id := none, team := "sales",
             call_initiated_at := none } ∧
    (mark_agent_busy_in_cache "ghost" (some "c1") Cache.initial).2 = none ∧
    (mark_agent_busy_in_cache "ghost" (some "c1") Cache.initial).1 =
      Cache.initial := by
  exact ⟨rfl, rfl, rfl⟩

/-- C7 (code_bug): an agent marked busy with a null call id at time 0 is
still busy after the reaper runs at time 1000 (far beyond the 90-second
window) — the reaper's stale-origination branch requires a
`call_initiated_at` value that `mark_agent_busy_in_cache` never writes,
so the whole cache is returned unchanged. -/
theorem C7_reaper_misses_null_call_busy_agent :
    (hget busyNullCallState.agent_states "a2").map AgentData.state =
      some "busy" ∧
    validate_and_cleanup_agent_states 1000 busyNullCallState =
      busyNullCallState := by
  exact ⟨rfl, rfl⟩

theorem update_active_call_agent_states (call_id : String)
    (patch : ActiveCall → ActiveCall) (s : Cache) :
    ((update_active_call_in_cache call_id patch s).1).agent_states =
      s.agent_states := by
  cases h : hget s.active_calls call_id <;>
  simp [update_active_call_in_cache, h]

/-- C4 counterexample: a CHANNEL_HANGUP_COMPLETE with cause `AGENT_BUSY`
whose popped record carries a payload appends the whole active-call
record at the TAIL of the agent's priority bucket — the previously queued
lead stays at the head, refuting "re-enqueues that lead at the head". -/
theorem C4_counterexample :
    hget (channel_hangup_complete_branch "AGENT_BUSY" none "u1" 20
        c4State).priority_mapping "a1" =
      some [PQEntry.leadEntry c4OldLead, PQEntry.callEntry c4Call] ∧
    hget (channel_hangup_complete_branch "AGENT_BUSY" none "u1" 20
        c4State).priority_mapping "a1" ≠
      some (PQEntry.leadEntry c4Lead :: [PQEntry.leadEntry c4OldLead]) := by
  exact ⟨rfl, by decide⟩

/-- C4 amended: for every CHANNEL_HANGUP_COMPLETE whose hangup cause is
NO_AVAILABLE_AGENT, AGENT_BUSY or LOSE_RACE and whose popped active-call
record carries a lead payload: when an agent id resolves (header or
record), the handler appends the popped record itself (not the bare lead)
at the TAIL of that agent's priority bucket, creating the bucket when
absent; when no agent resolves, the raw-value membership test fails for
`None` and the handler REPLACES the `"None"` bucket with the one-record
list, discarding any prior contents. -/
theorem C4_hangup_requeue_amended (s : Cache) (cause : String)
    (header_agent_id : Option String) (uuid : String) (now : Nat)
    (cd : ActiveCall)
    (hc : cause = "NO_AVAILABLE_AGENT" ∨ cause = "AGENT_BUSY" ∨
      cause = "LOSE_RACE")
    (hcd : hget s.active_calls uuid = some cd)
    (hp : cd.payload.isSome = true) :
    (∀ a, resolve_hangup_agent header_agent_id (some cd) = some a →
      hget (channel_hangup_complete_branch cause header_agent_id uuid now
          s).priority_mapping a =
        some ((hget s.priority_mapping a).getD []
          ++ [PQEntry.callEntry cd])) ∧
    (resolve_hangup_agent header_agent_id (some cd) = none →
      hget (channel_hangup_complete_branch cause header_agent_id uuid now
          s).priority_mapping "None" =
        some [PQEntry.callEntry cd]) := by
  have hnc : cause ≠ "NORMAL_CLEARING" := by
    rcases hc with h | h | h <;> simp [h]
  constructor
  · intro a hres
    simp only [channel_hangup_complete_branch, remove_active_call, hcd]
    rw [if_pos hc, if_neg hnc]
    simp only [hp, if_true, hres]
    cases hpm : hget s.priority_mapping a with
    | none => simp [add_to_priority_queue_mapping, pyStr, hpm, hget_hset]
    | some lst => simp [add_to_priority_queue_mapping, pyStr, hpm, hget_hset]
  · intro hres
    simp only [channel_hangup_complete_branch, remove_active_call, hcd]
    rw [if_pos hc, if_neg hnc]
    simp only [hp, if_true, hres]
    simp [add_to_priority_queue_mapping, pyStr, hget_hset]

/-- Witness for C4: the amended statement applied at the concrete C4
scenario, where the record's agent `a1` resolves and already has a
bucket. -/
theorem C4_hangup_requeue_amended_witness :
    hget (channel_hangup_complete_branch "AGENT_BUSY" none "u1" 20
        c4State).priority_mapping "a1" =
      some ((hget c4State.priority_mapping "a1").getD []
        ++ [PQEntry.callEntry c4Call]) := by
  exact (C4_hangup_requeue_amended c4State "AGENT_BUSY" none "u1" 20
    c4Call (Or.inr (Or.inl rfl)) rfl rfl).1 "a1" rfl

/-- C5 counterexample: agent `a2` is busy (state `busy`, null call id) —
not idle — yet the answer handler bridges the parked call onto it and
marks it busy with this call, instead of killing the call with cause
`AGENT_BUSY`: only `current_call_id` is consulted, never the state. -/
theorem C5_counterexample :
    (hget busyNullCallState.agent_states "a2").map AgentData.state =
      some "busy" ∧
    (handle_answer_first_leg_with_agent [("a2", "1002")] "a2" "u5" true 50
        busyNullCallState).2 =
      [SwitchCmd.uuidBridge "u5" "user/1002"] ∧
    hget (handle_answer_first_leg_with_agent [("a2", "1002")] "a2" "u5"
        true 50 busyNullCallState).1.agent_states "a2" =
      some { state := "busy", current_call_id := some "u5",
             team := "sales", call_initiated_at := none } := by
  exact ⟨rfl, rfl, rfl⟩

/-- C5 amended: the answer handler's idleness test is only "the agent has
a state row and its current_call_id is null" (the state field is
ignored): when that holds (and the extension is mapped and the bridge
succeeds) it bridges the agent onto the call and marks it busy with this
call id; otherwise it kills the call with cause `AGENT_BUSY`. -/
theorem C5_answer_branch_amended (extMap : List (String × String))
    (agent_id uuid ext : String) (now : Nat) (s : Cache) :
    (∀ d, hget s.agent_states agent_id = some d →
      d.current_call_id = none →
      hget extMap agent_id = some ext →
      (handle_answer_first_leg_with_agent extMap agent_id uuid true now
        s).2 = [SwitchCmd.uuidBridge uuid ("user/" ++ ext)] ∧
      hget (handle_answer_first_leg_with_agent extMap agent_id uuid true
        now s).1.agent_states agent_id =
        some { state := "busy", current_call_id := some uuid,
               team := d.team,
               call_initiated_at := d.call_initiated_at }) ∧
    ((hget s.agent_states agent_id = none ∨
      ∃ d c, hget s.agent_states agent_id = some d ∧
        d.current_call_id = some c) →
      handle_answer_first_leg_with_agent extMap agent_id uuid true now s =
        (s, [SwitchCmd.uuidKill uuid "AGENT_BUSY"])) := by
  constructor
  · intro d hd hcall hext
    have hidle : is_agent_idle_in_cache agent_id true false s = true := by
      simp [is_agent_idle_in_cache, hd, hcall]
    have hres : handle_answer_first_leg_with_agent extMap agent_id uuid
        true now s =
        ((update_active_call_in_cache uuid
          (fun c => { c with agent_id := some agent_id,
                             connected_at := some now })
          ((mark_agent_busy_in_cache agent_id (some uuid) s).1)).1,
         [SwitchCmd.uuidBridge uuid ("user/" ++ ext)]) := by
      simp [handle_answer_first_leg_with_agent, hidle,
        connect_agent_to_call, hext]
    rw [hres]
    refine ⟨rfl, ?_⟩
    rw [update_active_call_agent_states]
    simp only [mark_agent_busy_in_cache, hd]
    rw [setCodeQueue_agent_states]
    simp [hget_hset]
  · intro hbad
    have hidle : is_agent_idle_in_cache agent_id true false s = false := by
      rcases hbad with h | ⟨d, c, hd, hc⟩
      · simp [is_agent_idle_in_cache, h]
      · simp [is_agent_idle_in_cache, hd, hc]
    simp [handle_answer_first_leg_with_agent, hidle, disconnect_call]

/-- Witness for C5: the amended statement applied to an idle sales agent
answering a parked call. -/
theorem C5_answer_branch_amended_witness :
    (handle_answer_first_leg_with_agent [("a1", "1001")] "a1" "u9" true 7
      (runOps [AgentOp.login "a1" "sales"] 0 Cache.initial)).2 =
      [SwitchCmd.uuidBridge "u9" "user/1001"] := by
  exact ((C5_answer_branch_amended [("a1", "1001")] "a1" "u9" "1001" 7
    (runOps [AgentOp.login "a1" "sales"] 0 Cache.initial)).1
    { state := "idle", current_call_id := none, team := "sales",
      call_initiated_at := none } rfl rfl rfl).1

/-! ## The secondary-pass loop (claim C6) -/

theorem loop_actions_flags (agent_id : String) (ab pk : Bool)
    (origOk : Nat → Bool) (uuidGen : Nat → String) (now : Nat)
    (fuel : Nat) :
    ∀ (iter : Nat) (removed : Bool) (cd : Nat)
      (queue : List QueueObject) (s : Cache)
      (actions : List OriginateAction)
      (busies : List (String × Option String)),
    ∀ a ∈ (make_outbound_call_loop agent_id ab pk origOk uuidGen now
      fuel iter removed cd queue s actions busies).actions,
    a ∈ actions ∨ (a.auto_bridge = ab ∧ a.park = pk) := by
  induction fuel with
  | zero =>
    intro iter removed cd queue s actions busies a ha
    exact Or.inl ha
  | succ n ih =>
    intro iter removed cd queue s actions busies a ha
    match queue with
    | [] => exact Or.inl ha
    | lead :: rest =>
      rw [make_outbound_call_loop] at ha
      cases hph : lead.phone_number with
      | none =>
        rw [hph] at ha
        exact ih _ _ _ _ _ _ _ a ha
      | some phone =>
        rw [hph] at ha
        simp only at ha
        by_cases hok : origOk iter = true
        · rw [if_pos hok] at ha
          by_cases hrm : removed = true
          · rw [if_pos hrm] at ha
            rcases ih _ _ _ _ _ _ _ a ha with hmem | hflag
            · rcases List.mem_append.mp hmem with h | h
              · exact Or.inl h
              · right
                obtain rfl := List.mem_singleton.mp h
                exact ⟨rfl, rfl⟩
            · exact Or.inr hflag
          · rw [if_neg hrm] at ha
            cases hmb : (mark_agent_busy_in_cache agent_id
                (if ab = true then some (uuidGen iter) else none)
                { s with sales_queue := zrem s.sales_queue agent_id }).2 with
            | none =>
              rw [hmb] at ha
              simp only at ha
              rcases List.mem_append.mp ha with h | h
              · exact Or.inl h
              · right
                obtain rfl := List.mem_singleton.mp h
                exact ⟨rfl, rfl⟩
            | some b =>
              rw [hmb] at ha
              simp only at ha
              rcases ih _ _ _ _ _ _ _ a ha with hmem | hflag
              · rcases List.mem_append.mp hmem with h | h
                · exact Or.inl h
                · right
                  obtain rfl := List.mem_singleton.mp h
                  exact ⟨rfl, rfl⟩
              · exact Or.inr hflag
        · rw [if_neg hok] at ha
          rcases ih _ _ _ _ _ _ _ a ha with hmem | hflag
          · rcases List.mem_append.mp hmem with h | h
            · exact Or.inl h
            · right
              obtain rfl := List.mem_singleton.mp h
              exact ⟨rfl, rfl⟩
          · exact Or.inr hflag

theorem loop_busies_removed (agent_id : String) (ab pk : Bool)
    (origOk : Nat → Bool) (uuidGen : Nat → String) (now : Nat)
    (fuel : Nat) :
    ∀ (iter cd : Nat) (queue : List QueueObject) (s : Cache)
      (actions : List OriginateAction)
      (busies : List (String × Option String)),
    (make_outbound_call_loop agent_id ab pk origOk uuidGen now fuel iter
      true cd queue s actions busies).busyMarks = busies := by
  induction fuel with
  | zero => intro iter cd queue s actions busies; rfl
  | succ n ih =>
    intro iter cd queue s actions busies
    match queue with
    | [] => rfl
    | lead :: rest =>
      rw [make_outbound_call_loop]
      cases hph : lead.phone_number with
      | none => exact ih _ _ _ _ _ _
      | some phone =>
        simp only
        by_cases hok : origOk iter = true
        · rw [if_pos hok, if_pos (by trivial)]
          exact ih _ _ _ _ _ _
        · rw [if_neg hok]
          exact ih _ _ _ _ _ _

theorem loop_cd_mono (agent_id : String) (ab pk : Bool)
    (origOk : Nat → Bool) (uuidGen : Nat → String) (now : Nat)
    (fuel : Nat) :
    ∀ (iter : Nat) (removed : Bool) (cd : Nat)
      (queue : List QueueObject) (s : Cache)
      (actions : List OriginateAction)
      (busies : List (String × Option String)),
    cd ≤ (make_outbound_call_loop agent_id ab pk origOk uuidGen now fuel
      iter removed cd queue s actions busies).calls_dialed := by
  induction fuel with
  | zero => intro iter removed cd queue s actions busies; exact le_refl cd
  | succ n ih =>
    intro iter removed cd queue s actions busies
    match queue with
    | [] => exact le_refl cd
    | lead :: rest =>
      rw [make_outbound_call_loop]
      cases hph : lead.phone_number with
      | none => exact ih _ _ _ _ _ _ _
      | some phone =>
        simp only
        by_cases hok : origOk iter = true
        · rw [if_pos hok]
          by_cases hrm : removed = true
          · rw [if_pos hrm]
            exact le_trans (Nat.le_succ cd) (ih _ _ _ _ _ _ _)
          · rw [if_neg hrm]
            cases hmb : (mark_agent_busy_in_cache agent_id
                (if ab = true then some (uuidGen iter) else none)
                { s with sales_queue := zrem s.sales_queue agent_id }).2 with
            | none => exact le_refl cd
            | some b =>
              simp only
              exact le_trans (Nat.le_succ cd) (ih _ _ _ _ _ _ _)
        · rw [if_neg hok]
          exact ih _ _ _ _ _ _ _

theorem loop_busies_formula (agent_id : String) (pk : Bool)
    (origOk : Nat → Bool) (uuidGen : Nat → String) (now : Nat)
    (fuel : Nat) :
    ∀ (iter cd : Nat) (queue : List QueueObject) (s : Cache)
      (actions : List OriginateAction)
      (busies : List (String × Option String)),
    (hget s.agent_states agent_id).isSome = true →
    (make_outbound_call_loop agent_id false pk origOk uuidGen now fuel
      iter false cd queue s actions busies).busyMarks =
      busies ++
        (if cd < (make_outbound_call_loop agent_id false pk origOk uuidGen
          now fuel iter false cd queue s actions busies).calls_dialed then
          [(agent_id, none)] else []) := by
  induction fuel with
  | zero =>
    intro iter cd queue s actions busies _
    simp [make_outbound_call_loop]
  | succ n ih =>
    intro iter cd queue s actions busies hrow
    match queue with
    | [] => simp [make_outbound_call_loop]
    | lead :: rest =>
      rw [make_outbound_call_loop]
      cases hph : lead.phone_number with
      | none => exact ih _ _ _ _ _ _ hrow
      | some phone =>
        simp only
        by_cases hok : origOk iter = true
        · obtain ⟨d, hd⟩ := Option.isSome_iff_exists.mp hrow
          rw [if_pos hok]
          simp only [mark_agent_busy_in_cache, hd, Bool.false_eq_true,
            if_false, loop_busies_removed]
          split
          · rfl
          · rename_i hcontra
            exact absurd (lt_of_lt_of_le (Nat.lt_succ_self cd)
              (loop_cd_mono agent_id false pk origOk uuidGen now n
                (iter + 1) true (cd + 1) rest _ _ _)) hcontra
        · rw [if_neg hok]
          exact ih _ _ _ _ _ _ hrow

theorem is_agent_idle_isSome (aid : String) (c1 c2 : Bool) (s : Cache)
    (h : is_agent_idle_in_cache aid c1 c2 s = true) :
    (hget s.agent_states aid).isSome = true := by
  unfold is_agent_idle_in_cache at h
  cases hrow : hget s.agent_states aid with
  | none => rw [hrow] at h; cases h
  | some d => rfl

theorem helper_actions_flags (aid : String) (leads : List QueueObject)
    (m : Nat) (hm : 2 ≤ m) (origOk : Nat → Bool) (uuidGen : Nat → String)
    (now : Nat) (s : Cache) :
    ∀ a ∈ (make_outbound_call_helper aid leads m origOk uuidGen now
      s).actions, a.auto_bridge = false ∧ a.park = true := by
  intro a ha
  have hab : (m == 1) = false :=
    beq_eq_false_iff_ne.mpr (Nat.ne_of_gt (lt_of_lt_of_le one_lt_two hm))
  have hpk : decide (m > 1) = true := by
    simp [lt_of_lt_of_le one_lt_two hm]
  simp only [make_outbound_call_helper, hab] at ha
  rw [if_neg (by simp)] at ha
  rcases loop_actions_flags aid false (decide (m > 1)) origOk uuidGen now
      _ _ _ _ _ _ _ _ a ha with h | h
  · simp at h
  · exact ⟨h.1, by rw [h.2, hpk]⟩

theorem helper_busy_once (aid : String) (leads : List QueueObject)
    (m : Nat) (hm : 2 ≤ m) (origOk : Nat → Bool) (uuidGen : Nat → String)
    (now : Nat) (s : Cache)
    (hrow : (hget s.agent_states aid).isSome = true) :
    (make_outbound_call_helper aid leads m origOk uuidGen now s).busyMarks =
      if 0 < (make_outbound_call_helper aid leads m origOk uuidGen now
        s).calls_dialed then [(aid, none)] else [] := by
  have hab : (m == 1) = false :=
    beq_eq_false_iff_ne.mpr (Nat.ne_of_gt (lt_of_lt_of_le one_lt_two hm))
  simp only [make_outbound_call_helper, hab]
  rw [if_neg (by simp)]
  rw [loop_busies_formula aid (decide (m > 1)) origOk uuidGen now
    (min m leads.length) 0 0 leads s [] [] hrow]
  simp

theorem pass_actions_flags (m : Nat) (hm : 2 ≤ m)
    (origOk : String → Nat → Bool) (uuidGen : String → Nat → String)
    (now : Nat) (entries : List (String × List QueueObject)) :
    ∀ (s : Cache),
    ∀ a ∈ (process_secondary_entries m origOk uuidGen now entries
      s).actions, a.auto_bridge = false ∧ a.park = true := by
  induction entries with
  | nil =>
    intro s a ha
    simp [process_secondary_entries] at ha
  | cons e rest ih =>
    intro s a ha
    rcases e with ⟨aid, leads⟩
    rw [process_secondary_entries] at ha
    by_cases hskip : (leads.isEmpty || aid == "0" ||
        !(is_agent_idle_in_cache aid true true s)) = true
    · rw [if_pos hskip] at ha
      exact ih s a ha
    · rw [if_neg hskip] at ha
      simp only at ha
      rcases List.mem_append.mp ha with h | h
      · exact helper_actions_flags aid leads m hm (origOk aid)
          (uuidGen aid) now s a h
      · exact ih _ a h

theorem pass_busy_none (m : Nat) (hm : 2 ≤ m)
    (origOk : String → Nat → Bool) (uuidGen : String → Nat → String)
    (now : Nat) (entries : List (String × List QueueObject)) :
    ∀ (s : Cache),
    ∀ b ∈ (process_secondary_entries m origOk uuidGen now entries
      s).busyMarks, b.2 = none := by
  induction entries with
  | nil =>
    intro s b hb
    simp [process_secondary_entries] at hb
  | cons e rest ih =>
    intro s b hb
    rcases e with ⟨aid, leads⟩
    rw [process_secondary_entries] at hb
    by_cases hskip : (leads.isEmpty || aid == "0" ||
        !(is_agent_idle_in_cache aid true true s)) = true
    · rw [if_pos hskip] at hb
      exact ih s b hb
    · rw [if_neg hskip] at hb
      simp only at hb
      rcases List.mem_append.mp hb with h | h
      · have hidle : is_agent_idle_in_cache aid true true s = true := by
          rcases Bool.or_eq_false_iff.mp (Bool.eq_false_iff.mpr hskip)
            with ⟨-, hni⟩
          simpa using hni
        have hrow := is_agent_idle_isSome aid true true s hidle
        rw [helper_busy_once aid leads m hm (origOk aid) (uuidGen aid) now
          s hrow] at h
        by_cases hpos : 0 < (make_outbound_call_helper aid leads m
            (origOk aid) (uuidGen aid) now s).calls_dialed
        · rw [if_pos hpos] at h
          obtain rfl := List.mem_singleton.mp h
          rfl
        · rw [if_neg hpos] at h
          cases h
      · exact ih _ b h

/-! ## Refill idempotence (claim C8) -/

theorem refill_build_lead_lead_ids (c : CampaignRow)
    (acc : RefillBuild × Bool) (lead : LeadRow) :
    ((refill_build_lead c acc lead).1).lead_ids =
      acc.1.lead_ids ++ [lead.id] := by
  unfold refill_build_lead
  by_cases h1 : c.segment = "acquisition" <;>
  by_cases h2 : acc.2 = true <;>
  simp [h1, h2]

theorem refill_leads_fold_lead_ids (leads : List LeadRow)
    (c : CampaignRow) (b : RefillBuild) (added : Bool) :
    ((leads.foldl (refill_build_lead c) (b, added)).1).lead_ids =
      b.lead_ids ++ leads.map (fun l => l.id) := by
  induction leads generalizing b added with
  | nil => simp
  | cons x xs ih =>
    rw [List.foldl_cons]
    have hx := refill_build_lead_lead_ids c (b, added) x
    rcases hstep : refill_build_lead c (b, added) x with ⟨b', added'⟩
    rw [hstep] at hx
    rw [ih b' added', hx]
    simp

theorem refill_fold_lead_ids_mono (db : DialerDb) (cs : List CampaignRow)
    (b : RefillBuild) (x : Nat) (hx : x ∈ b.lead_ids) :
    x ∈ (cs.foldl (fun b c =>
      ((pending_leads_of db c).foldl (refill_build_lead c) (b, false)).1)
      b).lead_ids := by
  induction cs generalizing b with
  | nil => exact hx
  | cons c rest ih =>
    rw [List.foldl_cons]
    apply ih
    rw [refill_leads_fold_lead_ids]
    exact List.mem_append_left _ hx

theorem refill_fold_mem_lead_ids (db : DialerDb) (cs : List CampaignRow)
    (b : RefillBuild) (c : CampaignRow) (l : LeadRow) (hc : c ∈ cs)
    (hl : l ∈ pending_leads_of db c) :
    l.id ∈ (cs.foldl (fun b c =>
      ((pending_leads_of db c).foldl (refill_build_lead c) (b, false)).1)
      b).lead_ids := by
  induction cs generalizing b with
  | nil => cases hc
  | cons c' rest ih =>
    rw [List.foldl_cons]
    rcases List.mem_cons.mp hc with rfl | hrest
    · apply refill_fold_lead_ids_mono
      rw [refill_leads_fold_lead_ids]
      exact List.mem_append_right _ (List.mem_map_of_mem _ hl)
    · exact ih _ hrest

theorem refill_build_mem_lead_ids (db : DialerDb) (rs : RefillState)
    (c : CampaignRow) (l : LeadRow)
    (hc : c ∈ sorted_active_campaigns db)
    (hl : l ∈ pending_leads_of db c) :
    l.id ∈ (refill_build db rs).lead_ids :=
  refill_fold_mem_lead_ids db _ _ c l hc hl

theorem refill_queue_fst (db : DialerDb) (rs : RefillState) :
    (refill_queue db rs).1 =
      (refill_update_leads db (refill_build db rs).lead_ids).1 := by
  unfold refill_queue
  split <;> rfl

/-- After a refill, no active campaign retains a pending lead. -/
theorem refill_fst_no_pending (db : DialerDb) (rs : RefillState) :
    NoPendingOnActive (refill_queue db rs).1 := by
  rw [refill_queue_fst]
  intro c hc hact l hl hcamp hstat
  simp only [refill_update_leads, List.mem_map] at hl
  obtain ⟨l0, hl0, hfl0⟩ := hl
  by_cases hcond : ((refill_build db rs).lead_ids.contains l0.id &&
      l0.status == "pending") = true
  · rw [if_pos hcond] at hfl0
    rw [← hfl0] at hstat
    simp at hstat
  · rw [if_neg hcond] at hfl0
    subst hfl0
    apply hcond
    have hpend : l0.status = "pending" := hstat
    have hcs : c ∈ sorted_active_campaigns db := by
      unfold sorted_active_campaigns
      rw [List.mem_mergeSort, List.mem_filter]
      refine ⟨hc, ?_⟩
      rw [Bool.and_eq_true, List.any_eq_true]
      exact ⟨hact, l0, hl0, by simp [hcamp, hpend]⟩
    have hmem : l0 ∈ pending_leads_of db c := by
      unfold pending_leads_of
      rw [List.mem_filter]
      exact ⟨hl0, by simp [hcamp, hpend]⟩
    have hid := refill_build_mem_lead_ids db rs c l0 hcs hmem
    simp [List.contains_iff_exists_mem_beq, hpend]
    exact hid

/-- When no active campaign has a pending lead, refill is the identity
and updates zero rows. -/
theorem refill_of_no_pending (db : DialerDb) (rs : RefillState)
    (h : NoPendingOnActive db) : refill_queue db rs = (db, rs, 0) := by
  have hfilter : db.campaigns.filter (fun c => c.active &&
      db.leads.any (fun l => l.campaign_id == c.id &&
        l.status == "pending")) = [] := by
    rw [List.filter_eq_nil_iff]
    intro c hc
    by_cases hact : c.active = true
    · intro hcontra
      rw [Bool.and_eq_true, List.any_eq_true] at hcontra
      obtain ⟨-, l, hl, hcl⟩ := hcontra
      rw [Bool.and_eq_true, beq_iff_eq, beq_iff_eq] at hcl
      exact h c hc hact l hl hcl.1 hcl.2
    · simp [Bool.eq_false_iff.mpr hact]
  have hsorted : sorted_active_campaigns db = [] := by
    unfold sorted_active_campaigns
    rw [hfilter]
    simp
  have hbuild : refill_build db rs =
      { new_queue := [], rs := rs, lead_ids := [] } := by
    unfold refill_build
    rw [hsorted]
    rfl
  have hupd : refill_update_leads db ([] : List Nat) =
      (db, 0) := by
    unfold refill_update_leads
    simp
  unfold refill_queue
  rw [hbuild]
  dsimp only
  rw [hupd]
  simp

/-- C8 (confirmed): refill is idempotent — running refill a second time
before any new leads become pending updates zero rows and returns the
lead store and the whole Redis dialer state (queue mapping and
acquisition-agent set) unchanged. -/
theorem C8_refill_idempotent (db : DialerDb) (rs : RefillState) :
    refill_queue (refill_queue db rs).1 (refill_queue db rs).2.1 =
      ((refill_queue db rs).1, (refill_queue db rs).2.1, 0) :=
  refill_of_no_pending _ _ (refill_fst_no_pending db rs)

/-- C6 counterexample: with pickup_ratio 1 the dial multiplier is 1, and
the secondary pass then originates with `auto_bridge=true, park=false`
and marks the agent busy WITH the call id — refuting "every call
originated by the secondary pass uses auto_bridge=false and park=true
and marks the agent busy with no call-id". -/
theorem C6_counterexample :
    dial_multiplier 1 = 1 ∧
    (process_secondary_entries 1 (fun _ _ => true)
      (fun _ i => "u" ++ toString i) 5 [("a1", [c6Lead])] c6State).actions =
      [{ agent_id := some "a1", phone_number := "03009998877",
         payload := c6Lead, park := false, auto_bridge := true,
         call_uuid := "u0", ok := true }] ∧
    (process_secondary_entries 1 (fun _ _ => true)
      (fun _ i => "u" ++ toString i) 5 [("a1", [c6Lead])]
      c6State).busyMarks = [("a1", some "u0")] := by
  refine ⟨?_, rfl, rfl⟩
  norm_num [dial_multiplier, pyInt]

/-- C6 amended: (1) for every positive pickup_ratio the dial multiplier
is `m = max(1, floor(1/pickup_ratio))` (Python's `int` truncation equals
the floor there); (2) whenever `m ≥ 2` — in particular for the default
pickup_ratio 0.3 — every call originated by the secondary pass is
attempted with `auto_bridge=false` and `park=true`, and every
`mark_agent_busy` call it makes carries a null call-id; (3) the pass
skips agent-id `'0'` and non-idle agents entirely, leaving their buckets
unchanged and originating nothing for them; (4) for `m ≥ 2`, a batch for
an agent with a state row marks that agent busy (with null call-id)
exactly once when at least one originate succeeded, and never
otherwise. -/
theorem C6_secondary_pass_amended :
    (∀ r : ℚ, 0 < r → dial_multiplier r = max 1 ⌊1 / r⌋) ∧
    (∀ m : Nat, 2 ≤ m →
      ∀ (origOk : String → Nat → Bool) (uuidGen : String → Nat → String)
        (now : Nat) (entries : List (String × List QueueObject))
        (s : Cache),
      (∀ a ∈ (process_secondary_entries m origOk uuidGen now entries
        s).actions, a.auto_bridge = false ∧ a.park = true) ∧
      (∀ b ∈ (process_secondary_entries m origOk uuidGen now entries
        s).busyMarks, b.2 = none)) ∧
    (∀ (m : Nat) (origOk : String → Nat → Bool)
      (uuidGen : String → Nat → String) (now : Nat) (aid : String)
      (leads : List QueueObject) (rest : List (String × List QueueObject))
      (s : Cache),
      aid = "0" ∨ is_agent_idle_in_cache aid true true s = false →
      process_secondary_entries m origOk uuidGen now ((aid, leads) :: rest)
        s =
      { process_secondary_entries m origOk uuidGen now rest s with
        mapping := (aid, leads) ::
          (process_secondary_entries m origOk uuidGen now rest
            s).mapping }) ∧
    (∀ m : Nat, 2 ≤ m →
      ∀ (origOk : Nat → Bool) (uuidGen : Nat → String) (now : Nat)
        (aid : String) (leads : List QueueObject) (s : Cache),
      (hget s.agent_states aid).isSome = true →
      (make_outbound_call_helper aid leads m origOk uuidGen now
        s).busyMarks =
        if 0 < (make_outbound_call_helper aid leads m origOk uuidGen now
          s).calls_dialed then [(aid, none)] else []) := by
  refine ⟨?_, ?_, ?_, ?_⟩
  · intro r hr
    unfold dial_multiplier pyInt
    rw [if_pos (le_of_lt (by positivity : (0 : ℚ) < 1 / r))]
  · intro m hm origOk uuidGen now entries s
    exact ⟨pass_actions_flags m hm origOk uuidGen now entries s,
      pass_busy_none m hm origOk uuidGen now entries s⟩
  · intro m origOk uuidGen now aid leads rest s hskip
    rw [process_secondary_entries]
    rw [if_pos ?_]
    rcases hskip with rfl | hni
    · simp
    · simp [hni]
  · intro m hm origOk uuidGen now aid leads s hrow
    exact helper_busy_once aid leads m hm origOk uuidGen now s hrow

/-- Witness for C6: the amended statement applied at the default
pickup_ratio 0.3 (multiplier 3) and at a concrete one-agent pass. -/
theorem C6_secondary_pass_amended_witness :
    dial_multiplier defaultPickupRatio = 3 ∧
    (∀ a ∈ (process_secondary_entries 3 (fun _ _ => true)
      (fun _ i => "u" ++ toString i) 5 [("a1", [c6Lead])] c6State).actions,
      a.auto_bridge = false ∧ a.park = true) := by
  constructor
  · have h := C6_secondary_pass_amended.1 defaultPickupRatio
      (by norm_num [defaultPickupRatio])
    rw [h]
    have hfl : ⌊(1 : ℚ) / defaultPickupRatio⌋ = 3 := by
      rw [show (1 : ℚ) / defaultPickupRatio = 10 / 3 by
        norm_num [defaultPickupRatio]]
      rw [Int.floor_eq_iff]
      norm_num
    rw [hfl]
    norm_num
  · exact (C6_secondary_pass_amended.2.1 3 (by norm_num)
      (fun _ _ => true) (fun _ i => "u" ++ toString i) 5
      [("a1", [c6Lead])] c6State).1

/-- C9 (code_bug): `originate_call` does return the pair
`(true, call_uuid)` when the `bgapi` response contains `+OK` and the pair
`(false, null)` on a non-OK response — but the exception path (here: a
`None` payload, which makes `build_originate_command` return `None` and
`originate_call` raise and catch) returns the bare boolean `False`
instead of the claimed pair, so callers that unpack two values crash. -/
theorem C9_exception_path_returns_bare_false :
    originate_call "1000" true none none false [] false 30 "u-1"
        (some "+OK Job-UUID abc") = OriginateRet.boolOnly false ∧
    OriginateRet.boolOnly false ≠ OriginateRet.pair false none ∧
    originate_call "1000" true none (some [("phone_number", "1000")])
        false [] false 30 "u-1" (some "+OK Job-UUID abc") =
      OriginateRet.pair true (some "u-1") ∧
    originate_call "1000" true none (some [("phone_number", "1000")])
        false [] false 30 "u-1" (some "-ERR something") =
      OriginateRet.pair false none ∧
    originate_call "1000" true none (some [("phone_number", "1000")])
        false [] false 30 "u-1" none =
      OriginateRet.pair false none := by
  refine ⟨rfl, by decide, ?_, ?_, rfl⟩ <;> decide

/-- C10 (confirmed): the three waiting-queue helpers that
`events/tasks.py` line 16 imports from `events.utils` are bound neither
by `events/utils.py` nor by any module-level `def` anywhere in the
repository, so importing the event module fails with an ImportError on
`add_customer_to_waiting_queue` — the CHANNEL_PARK no-idle-agent branch
and the waiting-room task can never run, and no inbound caller is ever
enqueued into or served from a waiting queue. -/
theorem C10_waiting_queue_helpers_missing :
    ("add_customer_to_waiting_queue" ∈ events_tasks_utils_imports ∧
     "remove_customer_from_waiting_queue" ∈ events_tasks_utils_imports ∧
     "get_next_customer_waiting_in_queue" ∈ events_tasks_utils_imports) ∧
    ("add_customer_to_waiting_queue" ∉ events_utils_module_names ∧
     "remove_customer_from_waiting_queue" ∉ events_utils_module_names ∧
     "get_next_customer_waiting_in_queue" ∉ events_utils_module_names) ∧
    ("add_customer_to_waiting_queue" ∉ repo_module_level_def_names ∧
     "remove_customer_from_waiting_queue" ∉ repo_module_level_def_names ∧
     "get_next_customer_waiting_in_queue" ∉ repo_module_level_def_names) ∧
    pythonFromImport events_tasks_utils_imports events_utils_module_names =
      Except.error "add_customer_to_waiting_queue" := by
  refine ⟨by decide, by decide, by decide, rfl⟩

end Telebook
